import Mathlib

/-! # luaffi `casts.c`: value marshalling between Lua values and native memory

A shallow embedding of the five functions of `src/casts.c`

* `cast_lua_pointer` (pointer resolver),
* `cast_int_c`, `cast_number_c` (scalar writers),
* `cast_lua_c` (inbound marshaller),
* `cast_c_lua` (outbound marshaller),

over an explicit model of the Lua stack and of byte-addressed native memory.
Everything the C host leaves to the implementation (widths, float
encodings, tables declared in other files) is a field of `Host`.
-/

namespace Casts

/-! ## Native memory -/

/-- One byte of native memory. -/
abbrev Byte := Fin 256

/-- Byte-addressed native memory. -/
abbrev Mem := Nat → Byte

/-- The low byte of a natural number. -/
def lowByte (v : Nat) : Byte := ⟨v % 256, Nat.mod_lt v (by decide)⟩

/-- Memory `m` with the `w` bytes at `a` replaced by the `w` low bytes of `v`
(least significant byte at the lowest address). -/
def store (m : Mem) (a w v : Nat) : Mem :=
  fun x => if a ≤ x ∧ x < a + w then lowByte (v / 256 ^ (x - a)) else m x

/-- The unsigned number held by the `w` bytes at `a`
(least significant byte at the lowest address). -/
def load (m : Mem) (a : Nat) : Nat → Nat
  | 0 => 0
  | w + 1 => (m a).val + 256 * load m (a + 1) w

/-- C `memcpy(dst, src, n)`: every destination byte receives the source byte
as it was before the call. -/
def memcpy (m : Mem) (dst src n : Nat) : Mem :=
  fun x => if dst ≤ x ∧ x < dst + n then m (src + (x - dst)) else m x

/-- The value of a `w`-bit pattern `u` read as a two's-complement signed number. -/
def toSigned (w : Nat) (u : Nat) : Int :=
  if u < 2 ^ (w - 1) then (u : Int) else (u : Int) - 2 ^ w

/-- The `w`-bit pattern of an integer: C conversion to an unsigned `w`-bit type,
which is also the representation of the conversion to the signed type. -/
def toBits (w : Nat) (n : Int) : Nat := (n % 2 ^ w).toNat

/-! ## Lua numbers -/

/-- A `lua_Number`, carried as the value it denotes: a finite binary
floating-point number `m * 2 ^ e`, an infinity or a NaN. -/
inductive lua_Number where
  | finite (m : Int) (e : Int)
  | inf (neg : Bool)
  | nan
  deriving DecidableEq, Repr

/-- The integer a float converts to when its fraction is discarded
(C conversion of a floating value to an integer type truncates toward zero);
`none` for infinities and NaN. -/
def lua_Number.trunc : lua_Number → Option Int
  | .finite m e => if 0 ≤ e then some (m * 2 ^ e.toNat) else some (Int.tdiv m (2 ^ (-e).toNat))
  | _ => none

/-- The integer a float denotes exactly, if it denotes one. -/
def lua_Number.exactInt : lua_Number → Option Int
  | .finite m e =>
      if 0 ≤ e then some (m * 2 ^ e.toNat)
      else if m % 2 ^ (-e).toNat = 0 then some (m / 2 ^ (-e).toNat) else none
  | _ => none

/-! ## Host parameters -/

/-- The part of `struct ctype` that `casts.c` reads: `typ->arraysize` and
`typ->type->type`. -/
structure ctype where
  arraysize : Int
  type : Int
  deriving DecidableEq, Repr

/-- What the build and the other translation units fix for `casts.c`. -/
structure Host where
  /-- The macro `LUA_MAXINTEGER` of `luaconf.h`; a `lua_Integer` ranges over
  `-(LUA_MAXINTEGER + 1) .. LUA_MAXINTEGER`. -/
  LUA_MAXINTEGER : Nat
  /-- The macro `LUA_FLOAT_TYPE` of `luaconf.h` (1 float, 2 double, 3 long double). -/
  LUA_FLOAT_TYPE : Int
  /-- The size `sizeof(void *)`. -/
  sizeof_pointer : Nat
  /-- The size `sizeof(long double)`. -/
  sizeof_longdouble : Nat
  /-- The table `type_names[]`, declared outside `casts.c`. -/
  type_names : Int → String
  /-- The function `c_sizeof_`, defined outside `casts.c`. -/
  c_sizeof_ : ctype → Nat
  /-- The offset `offsetof(struct cfunc, fn)`. -/
  cfunc_fn : Nat
  /-- The offset `offsetof(struct closure, addr)`. -/
  closure_addr : Nat
  /-- Bit pattern of a `lua_Integer` converted to the floating type of a tag. -/
  int_to_fp : Int → Int → Nat
  /-- Bit pattern of a `lua_Number` converted to the floating type of a tag. -/
  num_to_fp : Int → lua_Number → Nat
  /-- The `lua_Number` obtained from a bit pattern of the floating type of a tag. -/
  fp_to_num : Int → Nat → lua_Number
  /-- Bit pattern a float-to-integer conversion leaves when the truncated value
  is not representable in the integer type of the tag (undefined in C). -/
  num_to_int_undef : Int → lua_Number → Nat

/-- The macro `LUA_MININTEGER`. -/
def Host.LUA_MININTEGER (H : Host) : Int := -((H.LUA_MAXINTEGER : Int) + 1)

/-- Conversion of an integer to `lua_Integer` (wrap-around into its range). -/
def Host.to_lua_Integer (H : Host) (v : Int) : Int :=
  (v + ((H.LUA_MAXINTEGER : Int) + 1)) % (2 * ((H.LUA_MAXINTEGER : Int) + 1))
    - ((H.LUA_MAXINTEGER : Int) + 1)

/-- The cast `(void *) n` of a `lua_Integer n`: the integer reduced to the width
of an address. -/
def Host.int_to_pointer (H : Host) (n : Int) : Nat := toBits (8 * H.sizeof_pointer) n

/-- The store `*(void **) a = v`. -/
def Host.storePtr (H : Host) (m : Mem) (a v : Nat) : Mem := store m a H.sizeof_pointer v

/-- The load `*(void **) a`. -/
def Host.loadPtr (H : Host) (m : Mem) (a : Nat) : Nat := load m a H.sizeof_pointer

/-! ## libffi type tags (`ffi.h`) and limits (`stdint.h`) -/

def FFI_TYPE_VOID : Int := 0
def FFI_TYPE_INT : Int := 1
def FFI_TYPE_FLOAT : Int := 2
def FFI_TYPE_DOUBLE : Int := 3
def FFI_TYPE_LONGDOUBLE : Int := 4
def FFI_TYPE_UINT8 : Int := 5
def FFI_TYPE_SINT8 : Int := 6
def FFI_TYPE_UINT16 : Int := 7
def FFI_TYPE_SINT16 : Int := 8
def FFI_TYPE_UINT32 : Int := 9
def FFI_TYPE_SINT32 : Int := 10
def FFI_TYPE_UINT64 : Int := 11
def FFI_TYPE_SINT64 : Int := 12
def FFI_TYPE_STRUCT : Int := 13
def FFI_TYPE_POINTER : Int := 14

def INT32_MAX : Nat := 2147483647
def INT64_MAX : Nat := 9223372036854775807
def LUA_FLOAT_LONGDOUBLE : Int := 3

/-! ## Lua values and the Lua state -/

/-- A Lua value as the C API sees it. A string carries its contents and the
address of its storage; a C function its code address and upvalues; a full
userdata its block address, the `struct ctype` that `c_typeof_` finds for it,
and its metatable (identity and fields), if it has one. Only full userdata
carry a metatable here: `casts.c` consults the metatable of userdata alone.
The contents of a string are those of the C string at its address. -/
inductive TValue where
  | nil
  | boolean (b : Bool)
  | integer (n : Int)
  | float (x : lua_Number)
  | string (s : String) (p : Nat)
  | lightuserdata (p : Nat)
  | table
  | lclosure (upvalues : List TValue)
  | cclosure (f : Nat) (upvalues : List TValue)
  | userdata (p : Nat) (typ : ctype) (mt : Option (Nat × List (String × TValue)))
  | thread

instance : Inhabited TValue := ⟨TValue.nil⟩

/-- The Lua state together with the native memory of the process. -/
structure lua_State where
  /-- The stack of the running C function, bottom first: index 1 is the head. -/
  stack : List TValue
  /-- What `luaL_getmetatable` finds: identity of the metatable registered under a name. -/
  registry : String → Option Nat
  /-- Address at which a string created by the API is stored. -/
  newstr : String → Nat
  /-- Native memory. -/
  mem : Mem

/-- The payload of `luaL_argerror(L, arg, extramsg)`. -/
structure ArgError where
  arg : Int
  extramsg : String
  deriving DecidableEq, Repr

/-- How a call ends: it returns a value, or it raises a Lua error (a non-local
exit), in either case leaving a state behind. -/
inductive Result (α : Type) where
  | ret (a : α) (L : lua_State)
  | raise (e : ArgError) (L : lua_State)

/-- The state a call leaves behind. -/
def Result.state {α : Type} : Result α → lua_State
  | .ret _ L => L
  | .raise _ L => L

/-- The returned value, if the call returns. -/
def Result.value {α : Type} : Result α → Option α
  | .ret a _ => some a
  | .raise _ _ => none

/-- The error, if the call raises one. -/
def Result.error {α : Type} : Result α → Option ArgError
  | .ret _ _ => none
  | .raise e _ => some e

/-- A C string: its address and its contents. -/
structure CString where
  p : Nat
  s : String
  deriving DecidableEq, Repr

/-! ## The Lua C API, as far as `casts.c` uses it -/

def LUA_TNONE : Int := -1
def LUA_TNIL : Int := 0
def LUA_TBOOLEAN : Int := 1
def LUA_TLIGHTUSERDATA : Int := 2
def LUA_TNUMBER : Int := 3
def LUA_TSTRING : Int := 4
def LUA_TTABLE : Int := 5
def LUA_TFUNCTION : Int := 6
def LUA_TUSERDATA : Int := 7
def LUA_TTHREAD : Int := 8

/-- The value at an acceptable stack index: positive indices count from the
bottom, negative ones from the top. -/
def index2value (L : lua_State) (i : Int) : Option TValue :=
  if 0 < i then L.stack[(i - 1).toNat]?
  else if i < 0 ∧ -i ≤ (L.stack.length : Int) then L.stack[((L.stack.length : Int) + i).toNat]?
  else none

/-- Push a value on the stack. -/
def push (L : lua_State) (v : TValue) : lua_State := { L with stack := L.stack ++ [v] }

/-- The call `lua_pop(L, 1)`. -/
def lua_pop1 (L : lua_State) : lua_State := { L with stack := L.stack.dropLast }

/-- The basic type of a value. -/
def TValue.ttype : TValue → Int
  | .nil => LUA_TNIL
  | .boolean _ => LUA_TBOOLEAN
  | .integer _ => LUA_TNUMBER
  | .float _ => LUA_TNUMBER
  | .string _ _ => LUA_TSTRING
  | .lightuserdata _ => LUA_TLIGHTUSERDATA
  | .table => LUA_TTABLE
  | .lclosure _ => LUA_TFUNCTION
  | .cclosure _ _ => LUA_TFUNCTION
  | .userdata _ _ _ => LUA_TUSERDATA
  | .thread => LUA_TTHREAD

/-- The call `lua_type(L, i)`. -/
def lua_type (L : lua_State) (i : Int) : Int :=
  match index2value L i with
  | some v => v.ttype
  | none => LUA_TNONE

/-- The call `lua_typename(L, t)`. -/
def lua_typename (t : Int) : String :=
  if t = LUA_TNONE then "no value"
  else if t = LUA_TNIL then "nil"
  else if t = LUA_TBOOLEAN then "boolean"
  else if t = LUA_TLIGHTUSERDATA then "userdata"
  else if t = LUA_TNUMBER then "number"
  else if t = LUA_TSTRING then "string"
  else if t = LUA_TTABLE then "table"
  else if t = LUA_TFUNCTION then "function"
  else if t = LUA_TUSERDATA then "userdata"
  else if t = LUA_TTHREAD then "thread"
  else "?"

/-- The call `lua_toboolean(L, i)`. -/
def lua_toboolean (L : lua_State) (i : Int) : Int :=
  match index2value L i with
  | none => 0
  | some .nil => 0
  | some (.boolean false) => 0
  | some _ => 1

/-- The call `lua_isinteger(L, i)`. -/
def lua_isinteger (L : lua_State) (i : Int) : Bool :=
  match index2value L i with
  | some (.integer _) => true
  | _ => false

/-- The integer a number converts to without loss, within `lua_Integer`. -/
def tointeger (H : Host) : TValue → Option Int
  | .integer n => some n
  | .float x =>
      match x.exactInt with
      | some v => if H.LUA_MININTEGER ≤ v ∧ v ≤ (H.LUA_MAXINTEGER : Int) then some v else none
      | none => none
  | _ => none

/-- The call `lua_tointeger(L, i)` on a number (0 when there is no conversion). -/
def lua_tointeger (H : Host) (L : lua_State) (i : Int) : Int :=
  match index2value L i with
  | some v => (tointeger H v).getD 0
  | none => 0

/-- The call `lua_tonumber(L, i)` on a float. Only the float case is reached
from `casts.c`; an integer is given as the float of the same value. -/
def lua_tonumber (L : lua_State) (i : Int) : lua_Number :=
  match index2value L i with
  | some (.float x) => x
  | some (.integer n) => .finite n 0
  | _ => .finite 0 0

/-- The call `lua_tostring(L, i)` on a string (`none` stands for `NULL`). -/
def lua_tostring (L : lua_State) (i : Int) : Option CString :=
  match index2value L i with
  | some (.string s p) => some ⟨p, s⟩
  | _ => none

/-- The call `lua_tocfunction(L, i)` (0 stands for `NULL`). -/
def lua_tocfunction (L : lua_State) (i : Int) : Nat :=
  match index2value L i with
  | some (.cclosure f _) => f
  | _ => 0

/-- The call `lua_getupvalue(L, i, 1)`: whether the function has a first
upvalue (the returned name is not `NULL`), and the state, with that upvalue
pushed if there is one. -/
def lua_getupvalue1 (L : lua_State) (i : Int) : Bool × lua_State :=
  match index2value L i with
  | some (.cclosure _ (u :: _)) => (true, push L u)
  | some (.lclosure (u :: _)) => (true, push L u)
  | _ => (false, L)

/-- The call `lua_touserdata(L, i)` (0 stands for `NULL`). -/
def lua_touserdata (L : lua_State) (i : Int) : Nat :=
  match index2value L i with
  | some (.userdata p _ _) => p
  | some (.lightuserdata p) => p
  | _ => 0

/-- Look a key up in the fields of a metatable. -/
def rawget (fields : List (String × TValue)) (k : String) : Option TValue :=
  match fields.find? (fun kv => kv.1 == k) with
  | some kv => some kv.2
  | none => none

/-- The call `luaL_getmetafield(L, i, e)`: the type of the field (`LUA_TNIL`
when there is no metatable or no such field) and the state, with the field
pushed when it is not nil. -/
def luaL_getmetafield (L : lua_State) (i : Int) (e : String) : Int × lua_State :=
  match index2value L i with
  | some (.userdata _ _ (some mt)) =>
      match rawget mt.2 e with
      | some .nil => (LUA_TNIL, L)
      | some v => (v.ttype, push L v)
      | none => (LUA_TNIL, L)
  | _ => (LUA_TNIL, L)

/-- The call `lua_pushfstring(L, fmt, ...)`, given the formatted text. -/
def lua_pushfstring (L : lua_State) (s : String) : lua_State :=
  push L (.string s (L.newstr s))

/-- The call `luaL_argerror(L, arg, extramsg)`: it never returns. -/
def luaL_argerror {α : Type} (L : lua_State) (arg : Int) (extramsg : String) : Result α :=
  .raise ⟨arg, extramsg⟩ L

/-- The call `luaL_typeerror(L, arg, tname)` (`typeerror` of `lauxlib.c`). -/
def luaL_typeerror {α : Type} (L : lua_State) (arg : Int) (tname : String) : Result α :=
  let r := luaL_getmetafield L arg "__name"
  let typearg : String :=
    if r.1 = LUA_TSTRING then
      match lua_tostring r.2 (-1) with
      | some c => c.s
      | none => ""
    else if lua_type r.2 arg = LUA_TLIGHTUSERDATA then "light userdata"
    else lua_typename (lua_type r.2 arg)
  let L2 := lua_pushfstring r.2 (tname ++ " expected, got " ++ typearg)
  luaL_argerror L2 arg (tname ++ " expected, got " ++ typearg)

/-- The call `luaL_checkinteger(L, i)`. Strings that convert to numbers are not
modelled: `casts.c` calls it on numbers only. -/
def luaL_checkinteger (H : Host) (L : lua_State) (i : Int) : Result Int :=
  match index2value L i with
  | some (.integer n) => .ret n L
  | some (.float x) =>
      match tointeger H (.float x) with
      | some v => .ret v L
      | none => luaL_argerror L i "number has no integer representation"
  | _ => luaL_typeerror L i (lua_typename LUA_TNUMBER)

/-- The call `luaL_testudata(L, i, tname)` (0 stands for `NULL`). -/
def luaL_testudata (L : lua_State) (i : Int) (tname : String) : Nat :=
  match index2value L i with
  | some (.userdata p _ (some mt)) => if L.registry tname = some mt.1 then p else 0
  | _ => 0

/-- The call `luaL_checkudata(L, i, tname)`. -/
def luaL_checkudata (L : lua_State) (i : Int) (tname : String) : Result Nat :=
  let p := luaL_testudata L i tname
  if p ≠ 0 then .ret p L else luaL_typeerror L i tname

/-- Modelled from the spec: `c_typeof_(L, i, 1)` is defined outside
`casts.c`. The spec has a CVar handle expose its declared tag and its array
length; here they are the `struct ctype` the userdata carries. -/
def c_typeof_ (L : lua_State) (i : Int) : ctype :=
  match index2value L i with
  | some (.userdata _ typ _) => typ
  | _ => ⟨0, 0⟩

/-! ## The functions of `casts.c` -/

/-- The address of a C string (0 for `NULL`). -/
def CString.addr : Option CString → Nat
  | some c => c.p
  | none => 0

/-- The test `strcmp(a, b) == 0` (`none`, standing for `NULL`, equals nothing). -/
def strcmp_eq (a : Option CString) (b : String) : Bool :=
  match a with
  | some c => c.s == b
  | none => false

/-- The function `cast_lua_pointer(L, i, pp)` of `casts.c`. -/
def cast_lua_pointer (H : Host) (L : lua_State) (i : Int) (pp : Nat) : Result Int :=
  let ltype := lua_type L i
  if ltype = LUA_TNIL then
    .ret 1 { L with mem := H.storePtr L.mem pp 0 }
  else if ltype = LUA_TNUMBER then
    match luaL_checkinteger H L i with
    | .raise e L1 => .raise e L1
    | .ret n L1 => .ret 1 { L1 with mem := H.storePtr L1.mem pp (H.int_to_pointer n) }
  else if ltype = LUA_TSTRING then
    .ret 1 { L with mem := H.storePtr L.mem pp (CString.addr (lua_tostring L i)) }
  else if ltype = LUA_TFUNCTION then
    let fn := lua_tocfunction L i
    if fn = 0 then .ret 0 L
    else
      let r := lua_getupvalue1 L i
      if r.1 then .ret 0 r.2
      else .ret 1 { r.2 with mem := H.storePtr r.2.mem pp fn }
  else if ltype = LUA_TLIGHTUSERDATA then
    .ret 1 { L with mem := H.storePtr L.mem pp (lua_touserdata L i) }
  else if ltype = LUA_TUSERDATA then
    let r := luaL_getmetafield L i "__name"
    if r.1 ≠ LUA_TSTRING then .ret 0 r.2
    else
      let L1 := r.2
      let name := lua_tostring L1 (-1)
      if strcmp_eq name "ffi_cvar" then
        let typ := c_typeof_ L1 i
        let var := lua_touserdata L1 i
        if typ.arraysize > 0 then
          .ret 1 (lua_pop1 { L1 with mem := H.storePtr L1.mem pp var })
        else if typ.type = FFI_TYPE_POINTER then
          .ret 1 (lua_pop1 { L1 with mem := H.storePtr L1.mem pp (H.loadPtr L1.mem var) })
        else .ret 0 L1
      else if strcmp_eq name "ffi_cfunc" then
        let func := lua_touserdata L1 i
        .ret 1 (lua_pop1 { L1 with mem := H.storePtr L1.mem pp (H.loadPtr L1.mem (func + H.cfunc_fn)) })
      else if strcmp_eq name "ffi_closure" then
        let cl := lua_touserdata L1 i
        .ret 1 (lua_pop1 { L1 with mem := H.storePtr L1.mem pp (H.loadPtr L1.mem (cl + H.closure_addr)) })
      else .ret 0 L1
  else .ret 0 L

/-- The function `cast_int_c(n, addr, type)` of `casts.c`: the result code and
the memory it leaves. -/
def cast_int_c (H : Host) (n : Int) (addr : Nat) (type : Int) (m : Mem) : Int × Mem :=
  if type = FFI_TYPE_UINT8 then (1, store m addr 1 (toBits 8 n))
  else if type = FFI_TYPE_UINT16 then (1, store m addr 2 (toBits 16 n))
  else if type = FFI_TYPE_UINT32 then (1, store m addr 4 (toBits 32 n))
  else if type = FFI_TYPE_UINT64 then (1, store m addr 8 (toBits 64 n))
  else if type = FFI_TYPE_SINT8 then (1, store m addr 1 (toBits 8 n))
  else if type = FFI_TYPE_SINT16 then (1, store m addr 2 (toBits 16 n))
  else if type = FFI_TYPE_SINT32 then (1, store m addr 4 (toBits 32 n))
  else if type = FFI_TYPE_SINT64 then (1, store m addr 8 (toBits 64 n))
  else if type = FFI_TYPE_FLOAT then (1, store m addr 4 (H.int_to_fp FFI_TYPE_FLOAT n))
  else if type = FFI_TYPE_DOUBLE then (1, store m addr 8 (H.int_to_fp FFI_TYPE_DOUBLE n))
  else if type = FFI_TYPE_LONGDOUBLE then
    (1, store m addr H.sizeof_longdouble (H.int_to_fp FFI_TYPE_LONGDOUBLE n))
  else (0, m)

/-- C conversion of a floating value to the integer type of tag `type`, whose
values are `lo .. hi` and whose width is `w` bits: the bit pattern stored. -/
def num_to_int (H : Host) (type : Int) (w : Nat) (lo hi : Int) (x : lua_Number) : Nat :=
  match x.trunc with
  | some t => if lo ≤ t ∧ t ≤ hi then toBits w t else H.num_to_int_undef type x
  | none => H.num_to_int_undef type x

/-- The function `cast_number_c(n, addr, type)` of `casts.c`: the result code
and the memory it leaves. -/
def cast_number_c (H : Host) (n : lua_Number) (addr : Nat) (type : Int) (m : Mem) : Int × Mem :=
  if type = FFI_TYPE_UINT8 then (1, store m addr 1 (num_to_int H type 8 0 255 n))
  else if type = FFI_TYPE_UINT16 then (1, store m addr 2 (num_to_int H type 16 0 65535 n))
  else if type = FFI_TYPE_UINT32 then (1, store m addr 4 (num_to_int H type 32 0 4294967295 n))
  else if type = FFI_TYPE_UINT64 then
    (1, store m addr 8 (num_to_int H type 64 0 18446744073709551615 n))
  else if type = FFI_TYPE_SINT8 then (1, store m addr 1 (num_to_int H type 8 (-128) 127 n))
  else if type = FFI_TYPE_SINT16 then (1, store m addr 2 (num_to_int H type 16 (-32768) 32767 n))
  else if type = FFI_TYPE_SINT32 then
    (1, store m addr 4 (num_to_int H type 32 (-2147483648) 2147483647 n))
  else if type = FFI_TYPE_SINT64 then
    (1, store m addr 8 (num_to_int H type 64 (-9223372036854775808) 9223372036854775807 n))
  else if type = FFI_TYPE_FLOAT then (1, store m addr 4 (H.num_to_fp FFI_TYPE_FLOAT n))
  else if type = FFI_TYPE_DOUBLE then (1, store m addr 8 (H.num_to_fp FFI_TYPE_DOUBLE n))
  else if type = FFI_TYPE_LONGDOUBLE then
    (1, store m addr H.sizeof_longdouble (H.num_to_fp FFI_TYPE_LONGDOUBLE n))
  else (0, m)

/-- The result of a scalar writer as a `Result` over the state `L`. -/
def written (L : lua_State) (r : Int × Mem) : Result Int := .ret r.1 { L with mem := r.2 }

/-- The dispatch of `cast_lua_c(L, i, addr, type)`: everything up to the test
`if (rc == 0)`; the value returned is `rc`. -/
def cast_lua_c_dispatch (H : Host) (L : lua_State) (i : Int) (addr : Nat) (type : Int) :
    Result Int :=
  let ltype := lua_type L i
  if type = FFI_TYPE_POINTER then cast_lua_pointer H L i addr
  else if ltype = LUA_TBOOLEAN then written L (cast_int_c H (lua_toboolean L i) addr type L.mem)
  else if ltype = LUA_TNUMBER then
    if lua_isinteger L i then written L (cast_int_c H (lua_tointeger H L i) addr type L.mem)
    else written L (cast_number_c H (lua_tonumber L i) addr type L.mem)
  else if ltype = LUA_TUSERDATA then
    match luaL_checkudata L i "ffi_cvar" with
    | .raise e L1 => .raise e L1
    | .ret var L1 =>
        let typ := c_typeof_ L1 i
        if type = typ.type then
          .ret 1 { L1 with mem := memcpy L1.mem addr var (H.c_sizeof_ typ) }
        else .ret 0 L1
  else .ret 0 L

/-- The text `lua_pushfstring` formats in `cast_lua_c`. -/
def expect_msg (H : Host) (type ltype : Int) : String :=
  "expect " ++ H.type_names type ++ ", got " ++ lua_typename ltype

/-- The function `cast_lua_c(L, i, addr, type)` of `casts.c`. -/
def cast_lua_c (H : Host) (L : lua_State) (i : Int) (addr : Nat) (type : Int) : Result Int :=
  let ltype := lua_type L i
  match cast_lua_c_dispatch H L i addr type with
  | .raise e L1 => .raise e L1
  | .ret rc L1 =>
      if rc = 0 then
        let L2 := lua_pushfstring L1 (expect_msg H type ltype)
        match lua_tostring L2 (-1) with
        | some c => luaL_argerror L2 i c.s
        | none => luaL_argerror L2 i ""
      else .ret rc L1

/-- The function `cast_c_lua(L, addr, type)` of `casts.c`: the result code and
the state, with the value pushed. -/
def cast_c_lua (H : Host) (L : lua_State) (addr : Nat) (type : Int) : Int × lua_State :=
  if type = FFI_TYPE_UINT8 then
    (1, push L (.integer (H.to_lua_Integer (load L.mem addr 1))))
  else if type = FFI_TYPE_SINT8 then
    (1, push L (.integer (H.to_lua_Integer (toSigned 8 (load L.mem addr 1)))))
  else if type = FFI_TYPE_UINT16 then
    (1, push L (.integer (H.to_lua_Integer (load L.mem addr 2))))
  else if type = FFI_TYPE_SINT16 then
    (1, push L (.integer (H.to_lua_Integer (toSigned 16 (load L.mem addr 2)))))
  else if INT32_MAX ≤ H.LUA_MAXINTEGER ∧ type = FFI_TYPE_SINT32 then
    (1, push L (.integer (H.to_lua_Integer (toSigned 32 (load L.mem addr 4)))))
  else if INT32_MAX ≤ H.LUA_MAXINTEGER ∧ type = FFI_TYPE_UINT32 then
    (1, push L (.integer (H.to_lua_Integer (load L.mem addr 4))))
  else if INT64_MAX ≤ H.LUA_MAXINTEGER ∧ type = FFI_TYPE_SINT64 then
    (1, push L (.integer (H.to_lua_Integer (toSigned 64 (load L.mem addr 8)))))
  else if INT64_MAX ≤ H.LUA_MAXINTEGER ∧ type = FFI_TYPE_UINT64 then
    (1, push L (.integer (H.to_lua_Integer (load L.mem addr 8))))
  else if type = FFI_TYPE_FLOAT then
    (1, push L (.float (H.fp_to_num FFI_TYPE_FLOAT (load L.mem addr 4))))
  else if type = FFI_TYPE_DOUBLE then
    (1, push L (.float (H.fp_to_num FFI_TYPE_DOUBLE (load L.mem addr 8))))
  else if H.LUA_FLOAT_TYPE = LUA_FLOAT_LONGDOUBLE ∧ type = FFI_TYPE_LONGDOUBLE then
    (1, push L (.float (H.fp_to_num FFI_TYPE_LONGDOUBLE (load L.mem addr H.sizeof_longdouble))))
  else if type = FFI_TYPE_POINTER then
    let p := H.loadPtr L.mem addr
    if p = 0 then (1, push L .nil) else (1, push L (.lightuserdata p))
  else (0, push L .nil)

/-! ## An example host: x86-64 Linux, GCC, Lua with 64-bit integers and doubles -/

/-- Floor of the base-2 logarithm of `a`, by halving at most `fuel` times. -/
def ilog2 : Nat → Nat → Nat
  | 0, _ => 0
  | fuel + 1, a => if a < 2 then 0 else ilog2 fuel (a / 2) + 1

/-- Round `a * 2 ^ e` to a multiple of `2 ^ q`, to nearest, ties to even: the
multiplier. -/
def roundShift (a : Nat) (e q : Int) : Nat :=
  if q ≤ e then a * 2 ^ (e - q).toNat
  else
    let s := (q - e).toNat
    let sig := a / 2 ^ s
    let rem := a % 2 ^ s
    let half := 2 ^ (s - 1)
    if rem > half ∨ (rem = half ∧ sig % 2 = 1) then sig + 1 else sig

/-- Bit pattern of a value in a binary floating-point format with `ebits`
exponent bits and `mbits` fraction bits; an `explicit` format (x87 extended)
stores the integer bit of the significand as well. -/
def ieee_enc (ebits mbits : Nat) (explicit : Bool) (x : lua_Number) : Nat :=
  let fbits := if explicit then mbits + 1 else mbits
  let emax := 2 ^ ebits - 1
  let signbit (neg : Bool) : Nat := if neg then 2 ^ (ebits + fbits) else 0
  let infbits : Nat := emax * 2 ^ fbits + (if explicit then 2 ^ mbits else 0)
  match x with
  | .nan => infbits + 2 ^ (mbits - 1)
  | .inf neg => signbit neg + infbits
  | .finite m e =>
      let a := m.natAbs
      if a = 0 then 0
      else
        let bias : Int := 2 ^ (ebits - 1) - 1
        let E : Int := max ((ilog2 a a : Int) + e) (1 - bias)
        let sig0 := roundShift a e (E - mbits)
        let carry := decide (2 ^ (mbits + 1) ≤ sig0)
        let sig := if carry then sig0 / 2 else sig0
        let E1 : Int := if carry then E + 1 else E
        let biased : Nat := if sig < 2 ^ mbits then 0 else (E1 + bias).toNat
        if emax ≤ biased then signbit (decide (m < 0)) + infbits
        else signbit (decide (m < 0)) + biased * 2 ^ fbits + sig % 2 ^ fbits

/-- The value of a bit pattern of such a format. -/
def ieee_dec (ebits mbits : Nat) (explicit : Bool) (bits : Nat) : lua_Number :=
  let fbits := if explicit then mbits + 1 else mbits
  let neg := decide (bits / 2 ^ (ebits + fbits) % 2 = 1)
  let biased := bits / 2 ^ fbits % 2 ^ ebits
  let frac := bits % 2 ^ mbits
  let bias : Int := 2 ^ (ebits - 1) - 1
  if biased = 2 ^ ebits - 1 then (if frac = 0 then .inf neg else .nan)
  else
    let sig : Nat :=
      if explicit then bits % 2 ^ fbits else if biased = 0 then frac else 2 ^ mbits + frac
    let E : Int := if biased = 0 then 1 - bias else (biased : Int) - bias
    .finite (if neg then -(sig : Int) else sig) (E - mbits)

/-- Encoding in the floating type of a tag: binary32, binary64, x87 extended. -/
def x86_64_enc (type : Int) (x : lua_Number) : Nat :=
  if type = FFI_TYPE_FLOAT then ieee_enc 8 23 false x
  else if type = FFI_TYPE_DOUBLE then ieee_enc 11 52 false x
  else ieee_enc 15 63 true x

/-- Decoding from the floating type of a tag, rounded to a double. -/
def x86_64_dec (type : Int) (bits : Nat) : lua_Number :=
  if type = FFI_TYPE_FLOAT then ieee_dec 8 23 false bits
  else if type = FFI_TYPE_DOUBLE then ieee_dec 11 52 false bits
  else ieee_dec 11 52 false (ieee_enc 11 52 false (ieee_dec 15 63 true bits))

/-- The instruction `cvttsd2si` with a `w`-bit destination: the truncated value
if it fits, the integer indefinite `2 ^ (w - 1)` if not. -/
def cvttsd2si (w : Nat) (x : lua_Number) : Nat :=
  match x.trunc with
  | some t => if -(2 ^ (w - 1) : Int) ≤ t ∧ t < 2 ^ (w - 1) then toBits w t else 2 ^ (w - 1)
  | none => 2 ^ (w - 1)

/-- What GCC-compiled code stores for a float-to-integer conversion C leaves
undefined: 32-bit `cvttsd2si` for the types up to `int32_t`, 64-bit for
`uint32_t` and `int64_t`, and the two-range sequence for `uint64_t`. -/
def x86_64_undef (type : Int) (x : lua_Number) : Nat :=
  if type = FFI_TYPE_UINT64 then
    match x.trunc with
    | some t => if 18446744073709551616 ≤ t then 0 else cvttsd2si 64 x
    | none => if x = .inf false then 0 else cvttsd2si 64 x
  else if type = FFI_TYPE_UINT32 ∨ type = FFI_TYPE_SINT64 then cvttsd2si 64 x
  else cvttsd2si 32 x

/-- Width in bytes of the native type of a tag on this host. -/
def x86_64_sizeof (type : Int) : Nat :=
  if type = FFI_TYPE_UINT8 ∨ type = FFI_TYPE_SINT8 then 1
  else if type = FFI_TYPE_UINT16 ∨ type = FFI_TYPE_SINT16 then 2
  else if type = FFI_TYPE_UINT32 ∨ type = FFI_TYPE_SINT32 ∨ type = FFI_TYPE_FLOAT
    ∨ type = FFI_TYPE_INT then 4
  else if type = FFI_TYPE_UINT64 ∨ type = FFI_TYPE_SINT64 ∨ type = FFI_TYPE_DOUBLE
    ∨ type = FFI_TYPE_POINTER then 8
  else if type = FFI_TYPE_LONGDOUBLE then 16
  else 0

/-- Names of the libffi tags, standing in for the elements of `type_names[]`. -/
def x86_64_type_names (type : Int) : String :=
  if type = FFI_TYPE_VOID then "void"
  else if type = FFI_TYPE_INT then "int"
  else if type = FFI_TYPE_FLOAT then "float"
  else if type = FFI_TYPE_DOUBLE then "double"
  else if type = FFI_TYPE_LONGDOUBLE then "longdouble"
  else if type = FFI_TYPE_UINT8 then "uint8"
  else if type = FFI_TYPE_SINT8 then "sint8"
  else if type = FFI_TYPE_UINT16 then "uint16"
  else if type = FFI_TYPE_SINT16 then "sint16"
  else if type = FFI_TYPE_UINT32 then "uint32"
  else if type = FFI_TYPE_SINT32 then "sint32"
  else if type = FFI_TYPE_UINT64 then "uint64"
  else if type = FFI_TYPE_SINT64 then "sint64"
  else if type = FFI_TYPE_STRUCT then "struct"
  else if type = FFI_TYPE_POINTER then "pointer"
  else "?"

/-- The example host. -/
def x86_64 : Host where
  LUA_MAXINTEGER := 9223372036854775807
  LUA_FLOAT_TYPE := 2
  sizeof_pointer := 8
  sizeof_longdouble := 16
  type_names := x86_64_type_names
  c_sizeof_ := fun typ => x86_64_sizeof typ.type
  cfunc_fn := 0
  closure_addr := 0
  int_to_fp := fun type n => x86_64_enc type (.finite n 0)
  num_to_fp := x86_64_enc
  fp_to_num := x86_64_dec
  num_to_int_undef := x86_64_undef

/-- The double nearest to 3.9. -/
def float_3_9 : lua_Number := .finite 8782019273372467 (-51)

/-- An example state. Its stack holds, from index 1: nil, true, the integer 42,
the float 3.9, a string, a light C function, a C closure with one upvalue, a
Lua function, a CVar array of ten `sint32`, a scalar CVar of tag `POINTER`, a
scalar CVar of tag `sint32`, a CFunc handle, and a light userdata. Memory is
all zero but for the pointer `0x1234` stored in the `POINTER` CVar at 4096. -/
def L0 : lua_State where
  stack :=
    [ .nil, .boolean true, .integer 42, .float float_3_9, .string "hello" 512,
      .cclosure 7168 [], .cclosure 7168 [.integer 5], .lclosure [],
      .userdata 2048 ⟨10, FFI_TYPE_SINT32⟩ (some (1, [("__name", .string "ffi_cvar" 640)])),
      .userdata 4096 ⟨0, FFI_TYPE_POINTER⟩ (some (1, [("__name", .string "ffi_cvar" 640)])),
      .userdata 6144 ⟨0, FFI_TYPE_SINT32⟩ (some (1, [("__name", .string "ffi_cvar" 640)])),
      .userdata 8192 ⟨0, 0⟩ (some (2, [("__name", .string "ffi_cfunc" 704)])),
      .lightuserdata 12288 ]
  registry := fun k =>
    if k = "ffi_cvar" then some 1 else if k = "ffi_cfunc" then some 2
    else if k = "ffi_closure" then some 3 else none
  newstr := fun _ => 16384
  mem := store (fun _ => 0) 4096 8 4660

/-- A second example state. Its stack holds, from index 1: the float 3.0,
false, a table, a full userdata without a metatable, a Closure handle whose
trampoline address `0x2345` is stored at 20480, and a full userdata whose
`__name` is not a string. Memory is all zero but for that address and the
`sint32` value 7 stored at 6144. -/
def L1 : lua_State where
  stack :=
    [ .float (.finite 3 0), .boolean false, .table, .userdata 24576 ⟨0, 0⟩ none,
      .userdata 20480 ⟨0, 0⟩ (some (3, [("__name", .string "ffi_closure" 768)])),
      .userdata 28672 ⟨0, 0⟩ (some (4, [("__name", .integer 9)])),
      .userdata 6144 ⟨0, FFI_TYPE_SINT32⟩ (some (1, [("__name", .string "ffi_cvar" 640)])) ]
  registry := fun k =>
    if k = "ffi_cvar" then some 1 else if k = "ffi_cfunc" then some 2
    else if k = "ffi_closure" then some 3 else none
  newstr := fun _ => 16384
  mem := store (store (fun _ => 0) 20480 8 9029) 6144 4 7

/-- The example host with a 32-bit `lua_Integer` (`LUA_INT_TYPE` set to
`LUA_INT_INT`). -/
def lua32 : Host := { x86_64 with LUA_MAXINTEGER := 2147483647 }

/-! ## Ranges of the integer tags -/

/-- The integer tags that `cast_c_lua` reads on host `H`: the 8- and 16-bit
ones always, the 32- and 64-bit ones under their `#if`. -/
def int_tag_enabled (H : Host) (T : Int) : Prop :=
  T = FFI_TYPE_UINT8 ∨ T = FFI_TYPE_SINT8 ∨ T = FFI_TYPE_UINT16 ∨ T = FFI_TYPE_SINT16
    ∨ (INT32_MAX ≤ H.LUA_MAXINTEGER ∧ (T = FFI_TYPE_SINT32 ∨ T = FFI_TYPE_UINT32))
    ∨ (INT64_MAX ≤ H.LUA_MAXINTEGER ∧ (T = FFI_TYPE_SINT64 ∨ T = FFI_TYPE_UINT64))

instance (H : Host) (T : Int) : Decidable (int_tag_enabled H T) := by
  unfold int_tag_enabled; infer_instance

/-- Least value of the native integer type of a tag. -/
def tag_min (T : Int) : Int :=
  if T = FFI_TYPE_SINT8 then -128
  else if T = FFI_TYPE_SINT16 then -32768
  else if T = FFI_TYPE_SINT32 then -2147483648
  else if T = FFI_TYPE_SINT64 then -9223372036854775808
  else 0

/-- Greatest value of the native integer type of a tag. -/
def tag_max (T : Int) : Int :=
  if T = FFI_TYPE_UINT8 then 255
  else if T = FFI_TYPE_SINT8 then 127
  else if T = FFI_TYPE_UINT16 then 65535
  else if T = FFI_TYPE_SINT16 then 32767
  else if T = FFI_TYPE_UINT32 then 4294967295
  else if T = FFI_TYPE_SINT32 then 2147483647
  else if T = FFI_TYPE_UINT64 then 18446744073709551615
  else if T = FFI_TYPE_SINT64 then 9223372036854775807
  else 0

/-! ## Vocabulary of the statements -/

/-- The eleven scalar tags the scalar writers recognise. -/
def scalar_tag (type : Int) : Prop :=
  type = FFI_TYPE_UINT8 ∨ type = FFI_TYPE_UINT16 ∨ type = FFI_TYPE_UINT32
    ∨ type = FFI_TYPE_UINT64 ∨ type = FFI_TYPE_SINT8 ∨ type = FFI_TYPE_SINT16
    ∨ type = FFI_TYPE_SINT32 ∨ type = FFI_TYPE_SINT64 ∨ type = FFI_TYPE_FLOAT
    ∨ type = FFI_TYPE_DOUBLE ∨ type = FFI_TYPE_LONGDOUBLE

instance (type : Int) : Decidable (scalar_tag type) := by
  unfold scalar_tag; infer_instance

/-- The eight integer tags. -/
def int_tag (T : Int) : Prop :=
  T = FFI_TYPE_UINT8 ∨ T = FFI_TYPE_SINT8 ∨ T = FFI_TYPE_UINT16 ∨ T = FFI_TYPE_SINT16
    ∨ T = FFI_TYPE_UINT32 ∨ T = FFI_TYPE_SINT32 ∨ T = FFI_TYPE_UINT64 ∨ T = FFI_TYPE_SINT64

instance (T : Int) : Decidable (int_tag T) := by
  unfold int_tag; infer_instance

/-- Width in bytes of the native type of a tag (0 for a tag without one here). -/
def tag_width (H : Host) (T : Int) : Nat :=
  if T = FFI_TYPE_UINT8 ∨ T = FFI_TYPE_SINT8 then 1
  else if T = FFI_TYPE_UINT16 ∨ T = FFI_TYPE_SINT16 then 2
  else if T = FFI_TYPE_UINT32 ∨ T = FFI_TYPE_SINT32 ∨ T = FFI_TYPE_FLOAT then 4
  else if T = FFI_TYPE_UINT64 ∨ T = FFI_TYPE_SINT64 ∨ T = FFI_TYPE_DOUBLE then 8
  else if T = FFI_TYPE_LONGDOUBLE then H.sizeof_longdouble
  else if T = FFI_TYPE_POINTER then H.sizeof_pointer
  else 0

/-- Whether the native integer type of a tag is signed. -/
def tag_signed (T : Int) : Bool :=
  decide (T = FFI_TYPE_SINT8 ∨ T = FFI_TYPE_SINT16 ∨ T = FFI_TYPE_SINT32 ∨ T = FFI_TYPE_SINT64)

/-- The integer a slot of integer tag `T` at `addr` holds: its bytes read with
the width and the signedness of `T`. -/
def slot_value (H : Host) (T : Int) (m : Mem) (addr : Nat) : Int :=
  if tag_signed T then toSigned (8 * tag_width H T) (load m addr (tag_width H T))
  else (load m addr (tag_width H T) : Int)

/-- The tags `cast_c_lua` has a case for on host `H`: the enabled integer
tags, `float`, `double`, `long double` under its `#if`, and `POINTER`. -/
def out_tag_enabled (H : Host) (T : Int) : Prop :=
  int_tag_enabled H T ∨ T = FFI_TYPE_FLOAT ∨ T = FFI_TYPE_DOUBLE
    ∨ (H.LUA_FLOAT_TYPE = LUA_FLOAT_LONGDOUBLE ∧ T = FFI_TYPE_LONGDOUBLE)
    ∨ T = FFI_TYPE_POINTER

instance (H : Host) (T : Int) : Decidable (out_tag_enabled H T) := by
  unfold out_tag_enabled; infer_instance

/-- Modelled from the spec: the function `c_sizeof_` is defined outside
`casts.c`. The spec has the raw copy take "exactly the byte width of that
type", the width of the tag of the CVar. -/
def c_sizeof_spec (H : Host) (typ : ctype) : Nat := tag_width H typ.type

/-- The text `msg` contains the text `s`. -/
def contains (msg s : String) : Prop := s.data <:+: msg.data

instance (msg s : String) : Decidable (contains msg s) := by
  unfold contains; infer_instance

/-! ## Facts about memory and integer conversion -/

theorem load_store_shift (m : Mem) (a v : Nat) :
    ∀ (w k : Nat), load (store m a (k + w) v) (a + k) w = v / 256 ^ k % 256 ^ w := by
  intro w
  induction w with
  | zero => intro k; simp [load, Nat.mod_one]
  | succ w ih =>
    intro k
    have h1 : (store m a (k + (w + 1)) v (a + k)).val = v / 256 ^ k % 256 := by
      simp [store, lowByte]
    have h2 : load (store m a (k + (w + 1)) v) (a + k + 1) w = v / 256 ^ (k + 1) % 256 ^ w := by
      have := ih (k + 1)
      rw [show k + 1 + w = k + (w + 1) by omega, show a + (k + 1) = a + k + 1 by omega] at this
      exact this
    rw [load, h1, h2, pow_succ 256 k, ← Nat.div_div_eq_div_mul, pow_succ 256 w,
      Nat.mul_comm (256 ^ w) 256, Nat.mod_mul]

/-- Reading back what was stored gives the `w` low bytes of the value. -/
theorem load_store (m : Mem) (a w v : Nat) : load (store m a w v) a w = v % 256 ^ w := by
  have := load_store_shift m a v w 0
  simpa using this

/-- A load of `w` bytes is below `256 ^ w`. -/
theorem load_lt (m : Mem) : ∀ (w a : Nat), load m a w < 256 ^ w := by
  intro w
  induction w with
  | zero => intro a; simp [load]
  | succ w ih =>
    intro a
    have h1 := (m a).isLt
    have h2 := ih (a + 1)
    rw [load, pow_succ]
    omega

/-- A store leaves the bytes outside its range alone. -/
theorem store_outside (m : Mem) (a w v x : Nat) (h : x < a ∨ a + w ≤ x) :
    store m a w v x = m x := by
  unfold store
  rw [if_neg]
  omega

theorem toBits_lt (w : Nat) (n : Int) : toBits w n < 2 ^ w := by
  unfold toBits
  have hpos : (0 : Int) < 2 ^ w := by positivity
  have h1 := Int.emod_lt_of_pos n hpos
  have h0 := Int.emod_nonneg n (ne_of_gt hpos)
  have : ((n % 2 ^ w).toNat : Int) < ((2 ^ w : Nat) : Int) := by
    rw [Int.toNat_of_nonneg h0]; push_cast; exact h1
  exact_mod_cast this

theorem toBits_of_nonneg (w : Nat) (n : Int) (h0 : 0 ≤ n) (h1 : n < 2 ^ w) :
    (toBits w n : Int) = n := by
  unfold toBits
  rw [Int.toNat_of_nonneg (Int.emod_nonneg n (by positivity)), Int.emod_eq_of_lt h0 h1]

theorem toSigned_toBits (w : Nat) (hw : 0 < w) (n : Int)
    (h0 : -(2 ^ (w - 1) : Int) ≤ n) (h1 : n < 2 ^ (w - 1)) :
    toSigned w (toBits w n) = n := by
  have hp : (2 : Int) ^ w = 2 * 2 ^ (w - 1) := by
    rw [← pow_succ']; congr 1; omega
  have hpos : (0 : Int) < 2 ^ (w - 1) := by positivity
  have hb : (toBits w n : Int) = n % 2 ^ w := by
    unfold toBits
    rw [Int.toNat_of_nonneg (Int.emod_nonneg n (by positivity))]
  unfold toSigned
  by_cases hn : 0 ≤ n
  · have hm : n % 2 ^ w = n := Int.emod_eq_of_lt hn (by rw [hp]; omega)
    have hlt : toBits w n < 2 ^ (w - 1) := by
      have : (toBits w n : Int) < ((2 ^ (w - 1) : Nat) : Int) := by
        rw [hb, hm]; push_cast; exact h1
      exact_mod_cast this
    rw [if_pos hlt, hb, hm]
  · have hm : n % 2 ^ w = n + 2 ^ w := by
      have : (n + 2 ^ w) % 2 ^ w = n + 2 ^ w :=
        Int.emod_eq_of_lt (by rw [hp]; omega) (by omega)
      rw [← this, Int.add_emod_self]
    have hge : ¬ toBits w n < 2 ^ (w - 1) := by
      intro hlt
      have : (toBits w n : Int) < ((2 ^ (w - 1) : Nat) : Int) := by exact_mod_cast hlt
      rw [hb, hm] at this
      push_cast at this
      rw [hp] at this
      omega
    rw [if_neg hge, hb, hm]
    ring

/-- A value inside the range of `lua_Integer` converts to itself. -/
theorem to_lua_Integer_id (H : Host) (v : Int)
    (h0 : H.LUA_MININTEGER ≤ v) (h1 : v ≤ (H.LUA_MAXINTEGER : Int)) :
    H.to_lua_Integer v = v := by
  unfold Host.to_lua_Integer
  unfold Host.LUA_MININTEGER at h0
  rw [Int.emod_eq_of_lt (by omega) (by omega)]
  ring

theorem load_store_toBits (m : Mem) (a b : Nat) (n : Int) :
    load (store m a b (toBits (8 * b) n)) a b = toBits (8 * b) n := by
  rw [load_store]
  apply Nat.mod_eq_of_lt
  have := toBits_lt (8 * b) n
  rwa [pow_mul] at this

theorem round_trip_unsigned (m : Mem) (a b : Nat) (v : Int) (h0 : 0 ≤ v) (h1 : v < 2 ^ (8 * b)) :
    (load (store m a b (toBits (8 * b) v)) a b : Int) = v := by
  rw [load_store_toBits, toBits_of_nonneg _ _ h0 h1]

theorem round_trip_signed (m : Mem) (a b : Nat) (hb : 0 < b) (v : Int)
    (h0 : -(2 ^ (8 * b - 1) : Int) ≤ v) (h1 : v < 2 ^ (8 * b - 1)) :
    toSigned (8 * b) (load (store m a b (toBits (8 * b) v)) a b) = v := by
  rw [load_store_toBits, toSigned_toBits _ (by omega) _ h0 h1]

/-! ## C1: integer round trip -/

/-- C1, counterexample. On the example host the tag `uint64` is enabled and
`2 ^ 64 - 1` lies in its range, yet writing it with `cast_int_c` and reading
the slot with `cast_c_lua` pushes the Integer `-1`. -/
theorem C1_round_trip_fails_above_maxinteger :
    int_tag_enabled x86_64 FFI_TYPE_UINT64
    ∧ tag_min FFI_TYPE_UINT64 ≤ 18446744073709551615
    ∧ (18446744073709551615 : Int) ≤ tag_max FFI_TYPE_UINT64
    ∧ (cast_int_c x86_64 18446744073709551615 100 FFI_TYPE_UINT64 L0.mem).1 = 1
    ∧ (cast_c_lua x86_64
        { L0 with mem := (cast_int_c x86_64 18446744073709551615 100 FFI_TYPE_UINT64 L0.mem).2 }
        100 FFI_TYPE_UINT64).1 = 1
    ∧ (cast_c_lua x86_64
        { L0 with mem := (cast_int_c x86_64 18446744073709551615 100 FFI_TYPE_UINT64 L0.mem).2 }
        100 FFI_TYPE_UINT64).2.stack = L0.stack ++ [.integer (-1)]
    ∧ TValue.integer (-1) ≠ TValue.integer 18446744073709551615 := by
  refine ⟨by decide, by decide, by decide, by decide, by decide, rfl, ?_⟩
  intro h
  injection h with h
  exact absurd h (by decide)

/-- C1, as amended. For every integer tag `T` that `cast_c_lua` reads on the
host and every `v` in the range of `T` that is a `lua_Integer` value, writing
`v` with `cast_int_c` succeeds, and reading the slot with `cast_c_lua`
succeeds and pushes the Integer `v`. -/
theorem C1_int_round_trip (H : Host) (L : lua_State) (addr : Nat) (T v : Int)
    (hT : int_tag_enabled H T) (hlo : tag_min T ≤ v) (hhi : v ≤ tag_max T)
    (hmin : H.LUA_MININTEGER ≤ v) (hmax : v ≤ (H.LUA_MAXINTEGER : Int)) :
    (cast_int_c H v addr T L.mem).1 = 1
    ∧ cast_c_lua H { L with mem := (cast_int_c H v addr T L.mem).2 } addr T
        = (1, push { L with mem := (cast_int_c H v addr T L.mem).2 } (.integer v)) := by
  have hid := to_lua_Integer_id H v hmin hmax
  rcases hT with h | h | h | h | ⟨hc, h | h⟩ | ⟨hc, h | h⟩ <;> subst h
  · have hr := round_trip_unsigned L.mem addr 1 v
      (by simpa [tag_min, FFI_TYPE_UINT8, FFI_TYPE_SINT8, FFI_TYPE_UINT16, FFI_TYPE_SINT16, FFI_TYPE_UINT32,
      FFI_TYPE_SINT32, FFI_TYPE_UINT64, FFI_TYPE_SINT64] using hlo)
      (by simp [tag_max, FFI_TYPE_UINT8, FFI_TYPE_SINT8, FFI_TYPE_UINT16, FFI_TYPE_SINT16, FFI_TYPE_UINT32,
      FFI_TYPE_SINT32, FFI_TYPE_UINT64, FFI_TYPE_SINT64] at hhi; norm_num; omega)
    simp [cast_int_c, cast_c_lua, FFI_TYPE_UINT8, FFI_TYPE_SINT8, FFI_TYPE_UINT16, FFI_TYPE_SINT16, FFI_TYPE_UINT32,
      FFI_TYPE_SINT32, FFI_TYPE_UINT64, FFI_TYPE_SINT64] at hr ⊢
    rw [hr, hid]
  · have hr := round_trip_signed L.mem addr 1 (by decide) v
      (by simp [tag_min, FFI_TYPE_UINT8, FFI_TYPE_SINT8, FFI_TYPE_UINT16, FFI_TYPE_SINT16, FFI_TYPE_UINT32,
      FFI_TYPE_SINT32, FFI_TYPE_UINT64, FFI_TYPE_SINT64] at hlo; norm_num; omega)
      (by simp [tag_max, FFI_TYPE_UINT8, FFI_TYPE_SINT8, FFI_TYPE_UINT16, FFI_TYPE_SINT16, FFI_TYPE_UINT32,
      FFI_TYPE_SINT32, FFI_TYPE_UINT64, FFI_TYPE_SINT64] at hhi; norm_num; omega)
    simp [cast_int_c, cast_c_lua, FFI_TYPE_UINT8, FFI_TYPE_SINT8, FFI_TYPE_UINT16, FFI_TYPE_SINT16, FFI_TYPE_UINT32,
      FFI_TYPE_SINT32, FFI_TYPE_UINT64, FFI_TYPE_SINT64] at hr ⊢
    rw [hr, hid]
  · have hr := round_trip_unsigned L.mem addr 2 v
      (by simpa [tag_min, FFI_TYPE_UINT8, FFI_TYPE_SINT8, FFI_TYPE_UINT16, FFI_TYPE_SINT16, FFI_TYPE_UINT32,
      FFI_TYPE_SINT32, FFI_TYPE_UINT64, FFI_TYPE_SINT64] using hlo)
      (by simp [tag_max, FFI_TYPE_UINT8, FFI_TYPE_SINT8, FFI_TYPE_UINT16, FFI_TYPE_SINT16, FFI_TYPE_UINT32,
      FFI_TYPE_SINT32, FFI_TYPE_UINT64, FFI_TYPE_SINT64] at hhi; norm_num; omega)
    simp [cast_int_c, cast_c_lua, FFI_TYPE_UINT8, FFI_TYPE_SINT8, FFI_TYPE_UINT16, FFI_TYPE_SINT16, FFI_TYPE_UINT32,
      FFI_TYPE_SINT32, FFI_TYPE_UINT64, FFI_TYPE_SINT64] at hr ⊢
    rw [hr, hid]
  · have hr := round_trip_signed L.mem addr 2 (by decide) v
      (by simp [tag_min, FFI_TYPE_UINT8, FFI_TYPE_SINT8, FFI_TYPE_UINT16, FFI_TYPE_SINT16, FFI_TYPE_UINT32,
      FFI_TYPE_SINT32, FFI_TYPE_UINT64, FFI_TYPE_SINT64] at hlo; norm_num; omega)
      (by simp [tag_max, FFI_TYPE_UINT8, FFI_TYPE_SINT8, FFI_TYPE_UINT16, FFI_TYPE_SINT16, FFI_TYPE_UINT32,
      FFI_TYPE_SINT32, FFI_TYPE_UINT64, FFI_TYPE_SINT64] at hhi; norm_num; omega)
    simp [cast_int_c, cast_c_lua, FFI_TYPE_UINT8, FFI_TYPE_SINT8, FFI_TYPE_UINT16, FFI_TYPE_SINT16, FFI_TYPE_UINT32,
      FFI_TYPE_SINT32, FFI_TYPE_UINT64, FFI_TYPE_SINT64] at hr ⊢
    rw [hr, hid]
  · have hr := round_trip_signed L.mem addr 4 (by decide) v
      (by simp [tag_min, FFI_TYPE_UINT8, FFI_TYPE_SINT8, FFI_TYPE_UINT16, FFI_TYPE_SINT16, FFI_TYPE_UINT32,
      FFI_TYPE_SINT32, FFI_TYPE_UINT64, FFI_TYPE_SINT64] at hlo; norm_num; omega)
      (by simp [tag_max, FFI_TYPE_UINT8, FFI_TYPE_SINT8, FFI_TYPE_UINT16, FFI_TYPE_SINT16, FFI_TYPE_UINT32,
      FFI_TYPE_SINT32, FFI_TYPE_UINT64, FFI_TYPE_SINT64] at hhi; norm_num; omega)
    simp [cast_int_c, cast_c_lua, FFI_TYPE_UINT8, FFI_TYPE_SINT8, FFI_TYPE_UINT16, FFI_TYPE_SINT16, FFI_TYPE_UINT32,
      FFI_TYPE_SINT32, FFI_TYPE_UINT64, FFI_TYPE_SINT64, hc] at hr ⊢
    rw [hr, hid]
  · have hr := round_trip_unsigned L.mem addr 4 v
      (by simpa [tag_min, FFI_TYPE_UINT8, FFI_TYPE_SINT8, FFI_TYPE_UINT16, FFI_TYPE_SINT16, FFI_TYPE_UINT32,
      FFI_TYPE_SINT32, FFI_TYPE_UINT64, FFI_TYPE_SINT64] using hlo)
      (by simp [tag_max, FFI_TYPE_UINT8, FFI_TYPE_SINT8, FFI_TYPE_UINT16, FFI_TYPE_SINT16, FFI_TYPE_UINT32,
      FFI_TYPE_SINT32, FFI_TYPE_UINT64, FFI_TYPE_SINT64] at hhi; norm_num; omega)
    simp [cast_int_c, cast_c_lua, FFI_TYPE_UINT8, FFI_TYPE_SINT8, FFI_TYPE_UINT16, FFI_TYPE_SINT16, FFI_TYPE_UINT32,
      FFI_TYPE_SINT32, FFI_TYPE_UINT64, FFI_TYPE_SINT64, hc] at hr ⊢
    rw [hr, hid]
  · have hr := round_trip_signed L.mem addr 8 (by decide) v
      (by simp [tag_min, FFI_TYPE_UINT8, FFI_TYPE_SINT8, FFI_TYPE_UINT16, FFI_TYPE_SINT16, FFI_TYPE_UINT32,
      FFI_TYPE_SINT32, FFI_TYPE_UINT64, FFI_TYPE_SINT64] at hlo; norm_num; omega)
      (by simp [tag_max, FFI_TYPE_UINT8, FFI_TYPE_SINT8, FFI_TYPE_UINT16, FFI_TYPE_SINT16, FFI_TYPE_UINT32,
      FFI_TYPE_SINT32, FFI_TYPE_UINT64, FFI_TYPE_SINT64] at hhi; norm_num; omega)
    simp [cast_int_c, cast_c_lua, FFI_TYPE_UINT8, FFI_TYPE_SINT8, FFI_TYPE_UINT16, FFI_TYPE_SINT16, FFI_TYPE_UINT32,
      FFI_TYPE_SINT32, FFI_TYPE_UINT64, FFI_TYPE_SINT64, hc] at hr ⊢
    rw [hr, hid]
  · have hr := round_trip_unsigned L.mem addr 8 v
      (by simpa [tag_min, FFI_TYPE_UINT8, FFI_TYPE_SINT8, FFI_TYPE_UINT16, FFI_TYPE_SINT16, FFI_TYPE_UINT32,
      FFI_TYPE_SINT32, FFI_TYPE_UINT64, FFI_TYPE_SINT64] using hlo)
      (by simp [tag_max, FFI_TYPE_UINT8, FFI_TYPE_SINT8, FFI_TYPE_UINT16, FFI_TYPE_SINT16, FFI_TYPE_UINT32,
      FFI_TYPE_SINT32, FFI_TYPE_UINT64, FFI_TYPE_SINT64] at hhi; norm_num; omega)
    simp [cast_int_c, cast_c_lua, FFI_TYPE_UINT8, FFI_TYPE_SINT8, FFI_TYPE_UINT16, FFI_TYPE_SINT16, FFI_TYPE_UINT32,
      FFI_TYPE_SINT32, FFI_TYPE_UINT64, FFI_TYPE_SINT64, hc] at hr ⊢
    rw [hr, hid]

/-- C1, witness: the tag `sint8` and the value `-5` on the example host. -/
theorem C1_int_round_trip_witness :
    int_tag_enabled x86_64 FFI_TYPE_SINT8
    ∧ tag_min FFI_TYPE_SINT8 ≤ -5 ∧ (-5 : Int) ≤ tag_max FFI_TYPE_SINT8
    ∧ x86_64.LUA_MININTEGER ≤ -5 ∧ (-5 : Int) ≤ (x86_64.LUA_MAXINTEGER : Int)
    ∧ (cast_int_c x86_64 (-5) 100 FFI_TYPE_SINT8 L0.mem).1 = 1
    ∧ cast_c_lua x86_64 { L0 with mem := (cast_int_c x86_64 (-5) 100 FFI_TYPE_SINT8 L0.mem).2 }
        100 FFI_TYPE_SINT8
      = (1, push { L0 with mem := (cast_int_c x86_64 (-5) 100 FFI_TYPE_SINT8 L0.mem).2 }
          (.integer (-5))) :=
  ⟨by decide, by decide, by decide, by decide, by decide,
    C1_int_round_trip x86_64 L0 100 FFI_TYPE_SINT8 (-5)
      (by decide) (by decide) (by decide) (by decide) (by decide)⟩

/-! ## Facts about the stack and the scalar writers -/

theorem lua_type_of_index (L : lua_State) (i : Int) (v : TValue)
    (h : index2value L i = some v) : lua_type L i = v.ttype := by
  simp [lua_type, h]

/-- A push leaves the values at positive indices where they are. -/
theorem index2value_push (L : lua_State) (i : Int) (v x : TValue) (hi : 0 < i)
    (h : index2value L i = some v) : index2value (push L x) i = some v := by
  unfold index2value at h ⊢
  rw [if_pos hi] at h ⊢
  have hlt : (i - 1).toNat < L.stack.length := by
    by_contra hc
    rw [List.getElem?_eq_none (by omega)] at h
    exact absurd h (by simp)
  simp only [push]
  rw [List.getElem?_append_left hlt]
  exact h

/-- The value just pushed is the one at index `-1`. -/
theorem index2value_top (L : lua_State) (x : TValue) : index2value (push L x) (-1) = some x := by
  unfold index2value
  rw [if_neg (by decide)]
  simp only [push, List.length_append, List.length_singleton]
  rw [if_pos (by constructor <;> omega)]
  have : (((L.stack.length + 1 : Nat) : Int) + -1).toNat = L.stack.length := by omega
  rw [this, List.getElem?_concat_length]

theorem lua_pop1_push (L : lua_State) (x : TValue) (m : Mem) :
    lua_pop1 { push L x with mem := m } = { L with mem := m } := by
  simp [lua_pop1, push]

/-- A scalar writer returns 1, or returns 0 and has written nothing. -/
theorem cast_int_c_cases (H : Host) (n : Int) (addr : Nat) (type : Int) (m : Mem) :
    (cast_int_c H n addr type m).1 = 1 ∨ cast_int_c H n addr type m = (0, m) := by
  unfold cast_int_c
  by_cases h0 : type = FFI_TYPE_UINT8
  · rw [if_pos h0]; exact Or.inl rfl
  rw [if_neg h0]
  by_cases h1 : type = FFI_TYPE_UINT16
  · rw [if_pos h1]; exact Or.inl rfl
  rw [if_neg h1]
  by_cases h2 : type = FFI_TYPE_UINT32
  · rw [if_pos h2]; exact Or.inl rfl
  rw [if_neg h2]
  by_cases h3 : type = FFI_TYPE_UINT64
  · rw [if_pos h3]; exact Or.inl rfl
  rw [if_neg h3]
  by_cases h4 : type = FFI_TYPE_SINT8
  · rw [if_pos h4]; exact Or.inl rfl
  rw [if_neg h4]
  by_cases h5 : type = FFI_TYPE_SINT16
  · rw [if_pos h5]; exact Or.inl rfl
  rw [if_neg h5]
  by_cases h6 : type = FFI_TYPE_SINT32
  · rw [if_pos h6]; exact Or.inl rfl
  rw [if_neg h6]
  by_cases h7 : type = FFI_TYPE_SINT64
  · rw [if_pos h7]; exact Or.inl rfl
  rw [if_neg h7]
  by_cases h8 : type = FFI_TYPE_FLOAT
  · rw [if_pos h8]; exact Or.inl rfl
  rw [if_neg h8]
  by_cases h9 : type = FFI_TYPE_DOUBLE
  · rw [if_pos h9]; exact Or.inl rfl
  rw [if_neg h9]
  by_cases h10 : type = FFI_TYPE_LONGDOUBLE
  · rw [if_pos h10]; exact Or.inl rfl
  rw [if_neg h10]
  exact Or.inr rfl

theorem cast_number_c_cases (H : Host) (n : lua_Number) (addr : Nat) (type : Int) (m : Mem) :
    (cast_number_c H n addr type m).1 = 1 ∨ cast_number_c H n addr type m = (0, m) := by
  unfold cast_number_c
  by_cases h0 : type = FFI_TYPE_UINT8
  · rw [if_pos h0]; exact Or.inl rfl
  rw [if_neg h0]
  by_cases h1 : type = FFI_TYPE_UINT16
  · rw [if_pos h1]; exact Or.inl rfl
  rw [if_neg h1]
  by_cases h2 : type = FFI_TYPE_UINT32
  · rw [if_pos h2]; exact Or.inl rfl
  rw [if_neg h2]
  by_cases h3 : type = FFI_TYPE_UINT64
  · rw [if_pos h3]; exact Or.inl rfl
  rw [if_neg h3]
  by_cases h4 : type = FFI_TYPE_SINT8
  · rw [if_pos h4]; exact Or.inl rfl
  rw [if_neg h4]
  by_cases h5 : type = FFI_TYPE_SINT16
  · rw [if_pos h5]; exact Or.inl rfl
  rw [if_neg h5]
  by_cases h6 : type = FFI_TYPE_SINT32
  · rw [if_pos h6]; exact Or.inl rfl
  rw [if_neg h6]
  by_cases h7 : type = FFI_TYPE_SINT64
  · rw [if_pos h7]; exact Or.inl rfl
  rw [if_neg h7]
  by_cases h8 : type = FFI_TYPE_FLOAT
  · rw [if_pos h8]; exact Or.inl rfl
  rw [if_neg h8]
  by_cases h9 : type = FFI_TYPE_DOUBLE
  · rw [if_pos h9]; exact Or.inl rfl
  rw [if_neg h9]
  by_cases h10 : type = FFI_TYPE_LONGDOUBLE
  · rw [if_pos h10]; exact Or.inl rfl
  rw [if_neg h10]
  exact Or.inr rfl

/-! ## Facts about `cast_lua_c` -/

/-- With a scalar destination, an Integer source goes to `cast_int_c`. -/
theorem dispatch_integer (H : Host) (L : lua_State) (i : Int) (addr : Nat) (type n : Int)
    (ht : type ≠ FFI_TYPE_POINTER) (hv : index2value L i = some (.integer n)) :
    cast_lua_c_dispatch H L i addr type = written L (cast_int_c H n addr type L.mem) := by
  have h1 : lua_type L i = LUA_TNUMBER := lua_type_of_index L i _ hv
  have h2 : lua_isinteger L i = true := by simp [lua_isinteger, hv]
  have h3 : lua_tointeger H L i = n := by simp [lua_tointeger, hv, tointeger]
  unfold cast_lua_c_dispatch
  simp only [h1, h2, h3, if_neg ht]
  rw [if_neg (show ¬ LUA_TNUMBER = LUA_TBOOLEAN by decide), if_pos trivial, if_pos trivial]

/-- With a scalar destination, a Float source goes to `cast_number_c`. -/
theorem dispatch_float (H : Host) (L : lua_State) (i : Int) (addr : Nat) (type : Int)
    (x : lua_Number) (ht : type ≠ FFI_TYPE_POINTER) (hv : index2value L i = some (.float x)) :
    cast_lua_c_dispatch H L i addr type = written L (cast_number_c H x addr type L.mem) := by
  have h1 : lua_type L i = LUA_TNUMBER := lua_type_of_index L i _ hv
  have h2 : lua_isinteger L i = false := by simp [lua_isinteger, hv]
  have h3 : lua_tonumber L i = x := by simp [lua_tonumber, hv]
  unfold cast_lua_c_dispatch
  simp only [h1, h2, h3, if_neg ht]
  rw [if_neg (show ¬ LUA_TNUMBER = LUA_TBOOLEAN by decide), if_pos trivial,
    if_neg (show ¬ false = true by decide)]

/-- A dispatch result other than 0 is what `cast_lua_c` returns. -/
theorem cast_lua_c_of_ret (H : Host) (L : lua_State) (i : Int) (addr : Nat) (type rc : Int)
    (L1 : lua_State) (hd : cast_lua_c_dispatch H L i addr type = .ret rc L1) (hrc : rc ≠ 0) :
    cast_lua_c H L i addr type = .ret rc L1 := by
  unfold cast_lua_c
  simp only [hd]
  rw [if_neg hrc]

/-- On a dispatch result of 0, `cast_lua_c` raises its own argument error. -/
theorem cast_lua_c_of_zero (H : Host) (L : lua_State) (i : Int) (addr : Nat) (type : Int)
    (L1 : lua_State) (hd : cast_lua_c_dispatch H L i addr type = .ret 0 L1) :
    cast_lua_c H L i addr type
      = .raise ⟨i, expect_msg H type (lua_type L i)⟩
          (lua_pushfstring L1 (expect_msg H type (lua_type L i))) := by
  unfold cast_lua_c
  simp only [hd]
  rw [if_pos trivial]
  simp only [lua_pushfstring, lua_tostring, index2value_top, luaL_argerror]

/-- An error raised by the dispatch is the error of `cast_lua_c`. -/
theorem cast_lua_c_of_raise (H : Host) (L : lua_State) (i : Int) (addr : Nat) (type : Int)
    (e : ArgError) (L1 : lua_State) (hd : cast_lua_c_dispatch H L i addr type = .raise e L1) :
    cast_lua_c H L i addr type = .raise e L1 := by
  unfold cast_lua_c
  simp only [hd]

/-! ## C2: a non-integer Number with a `sint32` destination -/

/-- C2, counterexample. On the example host the float 3.9 (not an integer for
`lua_isinteger`) with destination tag `sint32` is not rejected: `cast_lua_c`
raises no error, returns 1, and the slot, 0 before, holds 3. -/
theorem C2_float_3_9_is_accepted :
    index2value L0 4 = some (.float float_3_9)
    ∧ lua_isinteger L0 4 = false
    ∧ (cast_lua_c x86_64 L0 4 100 FFI_TYPE_SINT32).error = none
    ∧ (cast_lua_c x86_64 L0 4 100 FFI_TYPE_SINT32).value = some 1
    ∧ load L0.mem 100 4 = 0
    ∧ load (cast_lua_c x86_64 L0 4 100 FFI_TYPE_SINT32).state.mem 100 4 = 3 :=
  ⟨rfl, by decide, by decide, by decide, by decide, by decide⟩

/-- C2, as amended. A Float source with destination tag `sint32` is accepted:
`cast_lua_c` returns 1 and the slot is written by `cast_number_c`; when the
float, its fraction discarded, fits `int32_t`, the slot holds that integer. -/
theorem C2_float_to_sint32_accepted (H : Host) (L : lua_State) (i : Int) (addr : Nat)
    (x : lua_Number) (hv : index2value L i = some (.float x)) :
    cast_lua_c H L i addr FFI_TYPE_SINT32
      = .ret 1 { L with mem := (cast_number_c H x addr FFI_TYPE_SINT32 L.mem).2 }
    ∧ ∀ t : Int, x.trunc = some t → -2147483648 ≤ t → t ≤ 2147483647 →
        toSigned 32 (load (cast_lua_c H L i addr FFI_TYPE_SINT32).state.mem addr 4) = t := by
  have hd := dispatch_float H L i addr FFI_TYPE_SINT32 x (by decide) hv
  have hw : cast_number_c H x addr FFI_TYPE_SINT32 L.mem
      = (1, store L.mem addr 4
          (num_to_int H FFI_TYPE_SINT32 32 (-2147483648) 2147483647 x)) := by
    simp [cast_number_c, FFI_TYPE_UINT8, FFI_TYPE_SINT8, FFI_TYPE_UINT16, FFI_TYPE_SINT16,
      FFI_TYPE_UINT32, FFI_TYPE_SINT32, FFI_TYPE_UINT64, FFI_TYPE_SINT64]
  have hc : cast_lua_c H L i addr FFI_TYPE_SINT32
      = .ret 1 { L with mem := (cast_number_c H x addr FFI_TYPE_SINT32 L.mem).2 } := by
    apply cast_lua_c_of_ret _ _ _ _ _ _ _ _ (by decide)
    rw [hd, hw]; rfl
  refine ⟨hc, ?_⟩
  intro t ht hlo hhi
  rw [hc, hw]
  simp only [Result.state, num_to_int, ht]
  rw [if_pos ⟨hlo, hhi⟩]
  exact round_trip_signed L.mem addr 4 (by decide) t (by norm_num; omega) (by norm_num; omega)

/-- C2, witness: the float 3.9 at index 4 of the example state. -/
theorem C2_float_to_sint32_accepted_witness :
    index2value L0 4 = some (.float float_3_9)
    ∧ (cast_lua_c x86_64 L0 4 100 FFI_TYPE_SINT32
        = .ret 1 { L0 with mem := (cast_number_c x86_64 float_3_9 100 FFI_TYPE_SINT32 L0.mem).2 }
      ∧ ∀ t : Int, float_3_9.trunc = some t → -2147483648 ≤ t → t ≤ 2147483647 →
          toSigned 32 (load (cast_lua_c x86_64 L0 4 100 FFI_TYPE_SINT32).state.mem 100 4) = t) :=
  ⟨rfl, C2_float_to_sint32_accepted x86_64 L0 4 100 float_3_9 rfl⟩

/-! ## C3: the error of a failed inbound marshal -/

/-- The message built by `cast_lua_c` contains both names. -/
theorem contains_expect_msg (H : Host) (type ltype : Int) :
    contains (expect_msg H type ltype) (H.type_names type)
    ∧ contains (expect_msg H type ltype) (lua_typename ltype) := by
  unfold contains expect_msg
  simp only [String.data_append]
  constructor
  · exact ⟨"expect ".data, ", got ".data ++ (lua_typename ltype).data, by simp⟩
  · exact List.IsSuffix.isInfix (List.suffix_append _ _)

/-- A full userdata never makes `cast_lua_pointer` raise. -/
theorem cast_lua_pointer_userdata_returns (H : Host) (L : lua_State) (i : Int) (pp : Nat)
    (h : lua_type L i = LUA_TUSERDATA) :
    ∃ rc L1, cast_lua_pointer H L i pp = .ret rc L1 := by
  unfold cast_lua_pointer
  simp only [h]
  rw [if_neg (by decide), if_neg (by decide), if_neg (by decide), if_neg (by decide),
    if_neg (by decide), if_pos trivial]
  split_ifs <;> exact ⟨_, _, rfl⟩

/-- When `cast_lua_pointer` raises, the source is a float without an integer
representation and the error is the one of `luaL_checkinteger`. -/
theorem cast_lua_pointer_raise (H : Host) (L : lua_State) (i : Int) (pp : Nat)
    (e : ArgError) (L1 : lua_State) (h : cast_lua_pointer H L i pp = .raise e L1) :
    e = ⟨i, "number has no integer representation"⟩
    ∧ ∃ x, index2value L i = some (.float x) ∧ tointeger H (.float x) = none := by
  cases hv : index2value L i with
  | none =>
    simp [cast_lua_pointer, lua_type, hv, LUA_TNONE, LUA_TNIL, LUA_TNUMBER, LUA_TSTRING,
      LUA_TFUNCTION, LUA_TLIGHTUSERDATA, LUA_TUSERDATA] at h
  | some v =>
    cases v with
    | userdata p typ mt =>
      obtain ⟨rc, L2, h2⟩ := cast_lua_pointer_userdata_returns H L i pp
        (lua_type_of_index L i _ hv)
      rw [h2] at h
      exact absurd h (by simp)
    | float x =>
      cases ht : tointeger H (.float x) with
      | none =>
        simp [cast_lua_pointer, lua_type, hv, TValue.ttype, luaL_checkinteger, ht,
          luaL_argerror, LUA_TNIL, LUA_TNUMBER] at h
        exact ⟨h.1.symm, x, rfl, ht⟩
      | some n =>
        simp [cast_lua_pointer, lua_type, hv, TValue.ttype, luaL_checkinteger, ht,
          LUA_TNIL, LUA_TNUMBER] at h
    | cclosure f ups =>
      simp only [cast_lua_pointer, lua_type, hv, TValue.ttype] at h
      rw [if_neg (by decide), if_neg (by decide), if_neg (by decide), if_pos trivial] at h
      split_ifs at h
    | _ =>
      simp [cast_lua_pointer, lua_type, hv, TValue.ttype, luaL_checkinteger, lua_tocfunction,
        LUA_TNIL, LUA_TNUMBER, LUA_TSTRING, LUA_TBOOLEAN, LUA_TTABLE, LUA_TTHREAD,
        LUA_TFUNCTION, LUA_TLIGHTUSERDATA, LUA_TUSERDATA] at h

/-- When `luaL_checkudata` raises, `luaL_testudata` found no such userdata and
the error is the type error of the auxiliary library. -/
theorem luaL_checkudata_raise (L : lua_State) (i : Int) (tname : String)
    (e : ArgError) (L1 : lua_State) (h : luaL_checkudata L i tname = .raise e L1) :
    luaL_testudata L i tname = 0 ∧ e.arg = i
    ∧ ∃ t, e.extramsg = tname ++ " expected, got " ++ t := by
  unfold luaL_checkudata at h
  by_cases hp : luaL_testudata L i tname = 0
  · simp only [hp, ne_eq, not_true_eq_false, if_false, luaL_typeerror, luaL_argerror] at h
    injection h with he _
    exact ⟨hp, by rw [← he], _, by rw [← he]⟩
  · simp only [ne_eq, hp, not_false_eq_true, if_true] at h
    exact absurd h (by simp)

/-- The dispatch of `cast_lua_c` raises only through `cast_lua_pointer` or
through `luaL_checkudata`. -/
theorem dispatch_raise (H : Host) (L : lua_State) (i : Int) (addr : Nat) (type : Int)
    (e : ArgError) (L1 : lua_State) (h : cast_lua_c_dispatch H L i addr type = .raise e L1) :
    (type = FFI_TYPE_POINTER ∧ cast_lua_pointer H L i addr = .raise e L1)
    ∨ (type ≠ FFI_TYPE_POINTER ∧ lua_type L i = LUA_TUSERDATA
        ∧ luaL_checkudata L i "ffi_cvar" = .raise e L1) := by
  unfold cast_lua_c_dispatch at h
  by_cases ht : type = FFI_TYPE_POINTER
  · rw [if_pos ht] at h
    exact Or.inl ⟨ht, h⟩
  · rw [if_neg ht] at h
    refine Or.inr ⟨ht, ?_⟩
    by_cases hb : lua_type L i = LUA_TBOOLEAN
    · simp only [hb, if_true, written] at h
      exact absurd h (by simp)
    · simp only [hb, if_false] at h
      by_cases hn : lua_type L i = LUA_TNUMBER
      · simp only [hn, if_true, written] at h
        split_ifs at h
      · simp only [hn, if_false] at h
        by_cases hu : lua_type L i = LUA_TUSERDATA
        · simp only [hu, if_true] at h
          refine ⟨hu, ?_⟩
          cases hc : luaL_checkudata L i "ffi_cvar" with
          | raise e2 L2 =>
            rw [hc] at h
            simpa using h
          | ret var L2 =>
            rw [hc] at h
            simp only at h
            split_ifs at h
        · simp only [hu, if_false] at h
          exact absurd h (by simp)

/-- C3, counterexample. On the example host two failures of `cast_lua_c` carry
a message of the auxiliary library that lacks the name of the destination tag:
the float 3.9 with a `POINTER` destination, and a CFunc handle (a userdata
that is not a CVar) with a `sint32` destination, whose message lacks the kind
name of the source as well. -/
theorem C3_library_messages :
    (cast_lua_c x86_64 L0 4 100 FFI_TYPE_POINTER).error
      = some ⟨4, "number has no integer representation"⟩
    ∧ x86_64.type_names FFI_TYPE_POINTER = "pointer"
    ∧ ¬ contains "number has no integer representation" (x86_64.type_names FFI_TYPE_POINTER)
    ∧ (cast_lua_c x86_64 L0 12 100 FFI_TYPE_SINT32).error
      = some ⟨12, "ffi_cvar expected, got ffi_cfunc"⟩
    ∧ x86_64.type_names FFI_TYPE_SINT32 = "sint32"
    ∧ lua_typename (lua_type L0 12) = "userdata"
    ∧ ¬ contains "ffi_cvar expected, got ffi_cfunc" (x86_64.type_names FFI_TYPE_SINT32)
    ∧ ¬ contains "ffi_cvar expected, got ffi_cfunc" (lua_typename (lua_type L0 12)) := by
  refine ⟨by decide, by decide, by decide, by decide, by decide, by decide, by decide,
    by decide⟩

/-- C3, as amended. Whenever `cast_lua_c` raises, the error is an argument
error at the position of the source. Its message contains the name of the
destination tag and the kind name of the source, except in two cases, where
it is the message of the auxiliary library: a float without an integer
representation with a `POINTER` destination (`luaL_checkinteger`), and a full
userdata that `luaL_checkudata` does not accept as `ffi_cvar` with a scalar
destination. -/
theorem C3_error_shape (H : Host) (L : lua_State) (i : Int) (addr : Nat) (type : Int)
    (e : ArgError) (L1 : lua_State) (h : cast_lua_c H L i addr type = .raise e L1) :
    e.arg = i
    ∧ ((contains e.extramsg (H.type_names type)
          ∧ contains e.extramsg (lua_typename (lua_type L i)))
      ∨ (type = FFI_TYPE_POINTER
          ∧ (∃ x, index2value L i = some (.float x) ∧ tointeger H (.float x) = none)
          ∧ e.extramsg = "number has no integer representation")
      ∨ (type ≠ FFI_TYPE_POINTER ∧ lua_type L i = LUA_TUSERDATA
          ∧ luaL_testudata L i "ffi_cvar" = 0
          ∧ ∃ t, e.extramsg = "ffi_cvar" ++ " expected, got " ++ t)) := by
  cases hd : cast_lua_c_dispatch H L i addr type with
  | ret rc L2 =>
    by_cases hrc : rc = 0
    · subst hrc
      rw [cast_lua_c_of_zero H L i addr type L2 hd] at h
      injection h with he _
      subst he
      exact ⟨rfl, Or.inl (contains_expect_msg H type (lua_type L i))⟩
    · rw [cast_lua_c_of_ret H L i addr type rc L2 hd hrc] at h
      exact absurd h (by simp)
  | raise e2 L2 =>
    rw [cast_lua_c_of_raise H L i addr type e2 L2 hd] at h
    injection h with he hL
    subst he
    rcases dispatch_raise H L i addr type e2 L2 hd with ⟨ht, hp⟩ | ⟨ht, hu, hc⟩
    · obtain ⟨he, hx⟩ := cast_lua_pointer_raise H L i addr e2 L2 hp
      subst he
      exact ⟨rfl, Or.inr (Or.inl ⟨ht, hx, rfl⟩)⟩
    · obtain ⟨h0, ha, hm⟩ := luaL_checkudata_raise L i "ffi_cvar" e2 L2 hc
      exact ⟨ha, Or.inr (Or.inr ⟨ht, hu, h0, hm⟩)⟩

/-- C3, witness: a string source with a `sint32` destination in the example
state. -/
theorem C3_error_shape_witness :
    cast_lua_c x86_64 L0 5 100 FFI_TYPE_SINT32
      = .raise ⟨5, "expect sint32, got string"⟩
          (lua_pushfstring L0 "expect sint32, got string")
    ∧ ((⟨5, "expect sint32, got string"⟩ : ArgError).arg = 5
      ∧ ((contains "expect sint32, got string" (x86_64.type_names FFI_TYPE_SINT32)
            ∧ contains "expect sint32, got string" (lua_typename (lua_type L0 5)))
        ∨ (FFI_TYPE_SINT32 = FFI_TYPE_POINTER
            ∧ (∃ x, index2value L0 5 = some (.float x) ∧ tointeger x86_64 (.float x) = none)
            ∧ "expect sint32, got string" = "number has no integer representation")
        ∨ (FFI_TYPE_SINT32 ≠ FFI_TYPE_POINTER ∧ lua_type L0 5 = LUA_TUSERDATA
            ∧ luaL_testudata L0 5 "ffi_cvar" = 0
            ∧ ∃ t, "expect sint32, got string" = "ffi_cvar" ++ " expected, got " ++ t))) :=
  ⟨rfl, C3_error_shape x86_64 L0 5 100 FFI_TYPE_SINT32 ⟨5, "expect sint32, got string"⟩
    (lua_pushfstring L0 "expect sint32, got string") rfl⟩

/-! ## C4: the text of the message -/

/-- C4, counterexample. A string source with a `sint32` destination in the
example state: the dispatch result is 0 and the message is
`expect sint32, got string`, which is not `expected sint32, got string`. -/
theorem C4_message_starts_with_expect :
    cast_lua_c_dispatch x86_64 L0 5 100 FFI_TYPE_SINT32 = .ret 0 L0
    ∧ (cast_lua_c x86_64 L0 5 100 FFI_TYPE_SINT32).error
      = some ⟨5, "expect sint32, got string"⟩
    ∧ (cast_lua_c x86_64 L0 5 100 FFI_TYPE_SINT32).error
      ≠ some ⟨5, "expected " ++ x86_64.type_names FFI_TYPE_SINT32 ++ ", got "
          ++ lua_typename (lua_type L0 5)⟩ :=
  ⟨rfl, by decide, by decide⟩

/-- C4, as amended. When the dispatch of `cast_lua_c` gives 0, `cast_lua_c`
raises an argument error at the position of the source whose message is
exactly `expect <type-name>, got <kind-name>`. -/
theorem C4_message_text (H : Host) (L : lua_State) (i : Int) (addr : Nat) (type : Int)
    (L1 : lua_State) (hd : cast_lua_c_dispatch H L i addr type = .ret 0 L1) :
    (cast_lua_c H L i addr type).error
      = some ⟨i, "expect " ++ H.type_names type ++ ", got " ++ lua_typename (lua_type L i)⟩ := by
  rw [cast_lua_c_of_zero H L i addr type L1 hd]
  rfl

/-- C4, witness: the string at index 5 of the example state with a `sint32`
destination. -/
theorem C4_message_text_witness :
    cast_lua_c_dispatch x86_64 L0 5 100 FFI_TYPE_SINT32 = .ret 0 L0
    ∧ (cast_lua_c x86_64 L0 5 100 FFI_TYPE_SINT32).error
      = some ⟨5, "expect " ++ x86_64.type_names FFI_TYPE_SINT32 ++ ", got "
          ++ lua_typename (lua_type L0 5)⟩ :=
  ⟨rfl, C4_message_text x86_64 L0 5 100 FFI_TYPE_SINT32 L0 rfl⟩

/-! ## C5: a failed inbound marshal writes nothing -/

theorem luaL_getmetafield_mem (L : lua_State) (i : Int) (k : String) :
    (luaL_getmetafield L i k).2.mem = L.mem := by
  unfold luaL_getmetafield
  split
  · split <;> rfl
  · rfl

/-- An error of `luaL_checkudata` leaves memory as it was. -/
theorem luaL_checkudata_raise_mem (L : lua_State) (i : Int) (tname : String)
    (e : ArgError) (L1 : lua_State) (h : luaL_checkudata L i tname = .raise e L1) :
    L1.mem = L.mem := by
  unfold luaL_checkudata at h
  by_cases hp : luaL_testudata L i tname = 0
  · simp only [hp, ne_eq, not_true_eq_false, if_false, luaL_typeerror, luaL_argerror] at h
    injection h with _ hL
    rw [← hL]
    simp only [lua_pushfstring, push]
    exact luaL_getmetafield_mem L i "__name"
  · simp only [ne_eq, hp, not_false_eq_true, if_true] at h
    exact absurd h (by simp)

/-- A value returned by `luaL_checkudata` comes with the state unchanged. -/
theorem luaL_checkudata_ret (L : lua_State) (i : Int) (tname : String)
    (p : Nat) (L1 : lua_State) (h : luaL_checkudata L i tname = .ret p L1) : L1 = L := by
  unfold luaL_checkudata at h
  by_cases hp : luaL_testudata L i tname = 0
  · simp only [hp, ne_eq, not_true_eq_false, if_false, luaL_typeerror, luaL_argerror] at h
    exact absurd h (by simp)
  · simp only [ne_eq, hp, not_false_eq_true, if_true] at h
    injection h with _ hL
    exact hL.symm

/-- A scalar writer whose result code is 0 leaves memory as it was. -/
theorem written_zero_mem (L L1 : lua_State) (r : Int × Mem)
    (hr : r.1 = 1 ∨ r = (0, L.mem)) (h : written L r = .ret 0 L1) : L1.mem = L.mem := by
  unfold written at h
  injection h with h1 h2
  rcases hr with hr | hr
  · rw [hr] at h1; exact absurd h1 (by decide)
  · rw [← h2, hr]

/-- With a scalar destination, a dispatch result of 0 comes with memory as it was. -/
theorem dispatch_zero_mem (H : Host) (L : lua_State) (i : Int) (addr : Nat) (type : Int)
    (L1 : lua_State) (ht : type ≠ FFI_TYPE_POINTER)
    (h : cast_lua_c_dispatch H L i addr type = .ret 0 L1) : L1.mem = L.mem := by
  unfold cast_lua_c_dispatch at h
  rw [if_neg ht] at h
  by_cases hb : lua_type L i = LUA_TBOOLEAN
  · simp only [hb, if_true] at h
    exact written_zero_mem L L1 _ (cast_int_c_cases H _ addr type L.mem) h
  · simp only [hb, if_false] at h
    by_cases hn : lua_type L i = LUA_TNUMBER
    · simp only [hn, if_true] at h
      split_ifs at h
      · exact written_zero_mem L L1 _ (cast_int_c_cases H _ addr type L.mem) h
      · exact written_zero_mem L L1 _ (cast_number_c_cases H _ addr type L.mem) h
    · simp only [hn, if_false] at h
      by_cases hu : lua_type L i = LUA_TUSERDATA
      · simp only [hu, if_true] at h
        cases hc : luaL_checkudata L i "ffi_cvar" with
        | raise e2 L2 =>
          rw [hc] at h
          exact absurd h (by simp)
        | ret var L2 =>
          rw [hc] at h
          simp only at h
          have hL2 := luaL_checkudata_ret L i "ffi_cvar" var L2 hc
          split_ifs at h
          · injection h with h1 _
            exact absurd h1 (by decide)
          · injection h with _ h2
            rw [← h2, hL2]
      · simp only [hu, if_false] at h
        injection h with _ h2
        rw [← h2]

/-- C5. For every source value and every destination tag other than `POINTER`,
if `cast_lua_c` raises an error, native memory, and so the destination slot,
is byte for byte what it was before the call. -/
theorem C5_failed_marshal_writes_nothing (H : Host) (L : lua_State) (i : Int) (addr : Nat)
    (type : Int) (e : ArgError) (L1 : lua_State) (ht : type ≠ FFI_TYPE_POINTER)
    (h : cast_lua_c H L i addr type = .raise e L1) :
    L1.mem = L.mem ∧ ∀ w, load L1.mem addr w = load L.mem addr w := by
  have hm : L1.mem = L.mem := by
    cases hd : cast_lua_c_dispatch H L i addr type with
    | ret rc L2 =>
      by_cases hrc : rc = 0
      · subst hrc
        rw [cast_lua_c_of_zero H L i addr type L2 hd] at h
        injection h with _ hL
        rw [← hL]
        exact dispatch_zero_mem H L i addr type L2 ht hd
      · rw [cast_lua_c_of_ret H L i addr type rc L2 hd hrc] at h
        exact absurd h (by simp)
    | raise e2 L2 =>
      rw [cast_lua_c_of_raise H L i addr type e2 L2 hd] at h
      injection h with _ hL
      rw [← hL]
      rcases dispatch_raise H L i addr type e2 L2 hd with ⟨ht2, _⟩ | ⟨_, _, hc⟩
      · exact absurd ht2 ht
      · exact luaL_checkudata_raise_mem L i "ffi_cvar" e2 L2 hc
  exact ⟨hm, fun w => by rw [hm]⟩

/-- C5, witness: the CFunc handle at index 12 of the example state with a
`sint32` destination, rejected by `luaL_checkudata`. -/
theorem C5_failed_marshal_writes_nothing_witness :
    FFI_TYPE_SINT32 ≠ FFI_TYPE_POINTER
    ∧ cast_lua_c x86_64 L0 12 100 FFI_TYPE_SINT32
      = .raise ⟨12, "ffi_cvar expected, got ffi_cfunc"⟩
          (lua_pushfstring (push L0 (.string "ffi_cfunc" 704)) "ffi_cvar expected, got ffi_cfunc")
    ∧ ((lua_pushfstring (push L0 (.string "ffi_cfunc" 704))
          "ffi_cvar expected, got ffi_cfunc").mem = L0.mem
      ∧ ∀ w, load (lua_pushfstring (push L0 (.string "ffi_cfunc" 704))
          "ffi_cvar expected, got ffi_cfunc").mem 100 w = load L0.mem 100 w) :=
  ⟨by decide, rfl,
    C5_failed_marshal_writes_nothing x86_64 L0 12 100 FFI_TYPE_SINT32
      ⟨12, "ffi_cvar expected, got ffi_cfunc"⟩ _ (by decide) rfl⟩

/-! ## C6: Number sources with a scalar destination -/

theorem scalar_tag_ne_pointer (type : Int) (h : scalar_tag type) : type ≠ FFI_TYPE_POINTER := by
  rcases h with h | h | h | h | h | h | h | h | h | h | h <;> subst h <;> decide

/-- The integer writer accepts each of the eleven scalar tags. -/
theorem cast_int_c_scalar (H : Host) (n : Int) (addr : Nat) (type : Int) (m : Mem)
    (h : scalar_tag type) : (cast_int_c H n addr type m).1 = 1 := by
  rcases cast_int_c_cases H n addr type m with h1 | h0
  · exact h1
  · exfalso
    have hne : cast_int_c H n addr type m ≠ (0, m) := by
      intro hc
      have h01 : (cast_int_c H n addr type m).1 = 0 := by rw [hc]
      revert h01
      unfold cast_int_c
      rcases h with h | h | h | h | h | h | h | h | h | h | h <;> subst h <;>
        simp [FFI_TYPE_UINT8, FFI_TYPE_SINT8, FFI_TYPE_UINT16, FFI_TYPE_SINT16,
          FFI_TYPE_UINT32, FFI_TYPE_SINT32, FFI_TYPE_UINT64, FFI_TYPE_SINT64,
          FFI_TYPE_FLOAT, FFI_TYPE_DOUBLE, FFI_TYPE_LONGDOUBLE]
    exact hne h0

/-- The float writer accepts each of the eleven scalar tags. -/
theorem cast_number_c_scalar (H : Host) (x : lua_Number) (addr : Nat) (type : Int) (m : Mem)
    (h : scalar_tag type) : (cast_number_c H x addr type m).1 = 1 := by
  rcases cast_number_c_cases H x addr type m with h1 | h0
  · exact h1
  · exfalso
    have hne : cast_number_c H x addr type m ≠ (0, m) := by
      intro hc
      have h01 : (cast_number_c H x addr type m).1 = 0 := by rw [hc]
      revert h01
      unfold cast_number_c
      rcases h with h | h | h | h | h | h | h | h | h | h | h <;> subst h <;>
        simp [FFI_TYPE_UINT8, FFI_TYPE_SINT8, FFI_TYPE_UINT16, FFI_TYPE_SINT16,
          FFI_TYPE_UINT32, FFI_TYPE_SINT32, FFI_TYPE_UINT64, FFI_TYPE_SINT64,
          FFI_TYPE_FLOAT, FFI_TYPE_DOUBLE, FFI_TYPE_LONGDOUBLE]
    exact hne h0

/-- C6. With a destination tag other than `POINTER`, a Number source that Lua
classifies as an integer is written by `cast_int_c` on its integer value, and
one it does not by `cast_number_c` on its float value; for each of the eleven
scalar tags `cast_lua_c` then returns 1 with memory as that writer left it. -/
theorem C6_number_routing (H : Host) (L : lua_State) (i : Int) (addr : Nat) (type : Int)
    (ht : type ≠ FFI_TYPE_POINTER) :
    (∀ n, index2value L i = some (.integer n) →
      lua_isinteger L i = true
      ∧ cast_lua_c_dispatch H L i addr type = written L (cast_int_c H n addr type L.mem)
      ∧ (scalar_tag type → cast_lua_c H L i addr type
          = .ret 1 { L with mem := (cast_int_c H n addr type L.mem).2 }))
    ∧ (∀ x, index2value L i = some (.float x) →
      lua_isinteger L i = false
      ∧ cast_lua_c_dispatch H L i addr type = written L (cast_number_c H x addr type L.mem)
      ∧ (scalar_tag type → cast_lua_c H L i addr type
          = .ret 1 { L with mem := (cast_number_c H x addr type L.mem).2 })) := by
  constructor
  · intro n hv
    have hd := dispatch_integer H L i addr type n ht hv
    refine ⟨by simp [lua_isinteger, hv], hd, ?_⟩
    intro hs
    apply cast_lua_c_of_ret _ _ _ _ _ _ _ _ (by decide)
    rw [hd, written, cast_int_c_scalar H n addr type L.mem hs]
  · intro x hv
    have hd := dispatch_float H L i addr type x ht hv
    refine ⟨by simp [lua_isinteger, hv], hd, ?_⟩
    intro hs
    apply cast_lua_c_of_ret _ _ _ _ _ _ _ _ (by decide)
    rw [hd, written, cast_number_c_scalar H x addr type L.mem hs]

/-- C6, witness: the destination tag `uint16` on the example state. -/
theorem C6_number_routing_witness :
    FFI_TYPE_UINT16 ≠ FFI_TYPE_POINTER
    ∧ index2value L0 3 = some (.integer 42)
    ∧ index2value L0 4 = some (.float float_3_9)
    ∧ scalar_tag FFI_TYPE_UINT16
    ∧ cast_lua_c x86_64 L0 3 100 FFI_TYPE_UINT16
        = .ret 1 { L0 with mem := (cast_int_c x86_64 42 100 FFI_TYPE_UINT16 L0.mem).2 }
    ∧ cast_lua_c x86_64 L0 4 100 FFI_TYPE_UINT16
        = .ret 1 { L0 with mem := (cast_number_c x86_64 float_3_9 100 FFI_TYPE_UINT16 L0.mem).2 } :=
  ⟨by decide, rfl, rfl, by decide,
    ((C6_number_routing x86_64 L0 3 100 FFI_TYPE_UINT16 (by decide)).1 42 rfl).2.2 (by decide),
    ((C6_number_routing x86_64 L0 4 100 FFI_TYPE_UINT16 (by decide)).2 float_3_9 rfl).2.2
      (by decide)⟩

/-! ## Facts about pointer slots -/

/-- Reading a pointer slot just written gives the address stored, reduced to
the width of an address. -/
theorem loadPtr_storePtr (H : Host) (m : Mem) (a v : Nat) :
    H.loadPtr (H.storePtr m a v) a = v % 256 ^ H.sizeof_pointer := by
  unfold Host.loadPtr Host.storePtr
  exact load_store m a H.sizeof_pointer v

theorem loadPtr_lt (H : Host) (m : Mem) (a : Nat) :
    H.loadPtr m a < 256 ^ H.sizeof_pointer :=
  load_lt m H.sizeof_pointer a

theorem int_to_pointer_lt (H : Host) (n : Int) :
    H.int_to_pointer n < 256 ^ H.sizeof_pointer := by
  have := toBits_lt (8 * H.sizeof_pointer) n
  rwa [pow_mul] at this

/-- With destination tag `POINTER` the dispatch is `cast_lua_pointer`. -/
theorem dispatch_pointer (H : Host) (L : lua_State) (i : Int) (addr : Nat) :
    cast_lua_c_dispatch H L i addr FFI_TYPE_POINTER = cast_lua_pointer H L i addr := by
  unfold cast_lua_c_dispatch
  rw [if_pos rfl]

/-- What `cast_c_lua` does with tag `POINTER`. -/
theorem cast_c_lua_pointer (H : Host) (L : lua_State) (addr : Nat) :
    cast_c_lua H L addr FFI_TYPE_POINTER
      = if H.loadPtr L.mem addr = 0 then (1, push L .nil)
        else (1, push L (.lightuserdata (H.loadPtr L.mem addr))) := by
  simp [cast_c_lua, FFI_TYPE_POINTER, FFI_TYPE_UINT8, FFI_TYPE_SINT8, FFI_TYPE_UINT16,
    FFI_TYPE_SINT16, FFI_TYPE_UINT32, FFI_TYPE_SINT32, FFI_TYPE_UINT64, FFI_TYPE_SINT64,
    FFI_TYPE_FLOAT, FFI_TYPE_DOUBLE, FFI_TYPE_LONGDOUBLE]

/-! ## C7: Nil with a `POINTER` destination -/

/-- C7. For a Nil source and a `POINTER` destination, `cast_lua_c` returns 1,
the slot then holds the null address, and `cast_c_lua` on that slot with tag
`POINTER` returns 1 and pushes Nil. -/
theorem C7_nil_to_pointer (H : Host) (L : lua_State) (i : Int) (addr : Nat)
    (hv : index2value L i = some .nil) :
    cast_lua_c H L i addr FFI_TYPE_POINTER
      = .ret 1 { L with mem := H.storePtr L.mem addr 0 }
    ∧ H.loadPtr (cast_lua_c H L i addr FFI_TYPE_POINTER).state.mem addr = 0
    ∧ cast_c_lua H (cast_lua_c H L i addr FFI_TYPE_POINTER).state addr FFI_TYPE_POINTER
      = (1, push (cast_lua_c H L i addr FFI_TYPE_POINTER).state .nil) := by
  have hp : cast_lua_pointer H L i addr = .ret 1 { L with mem := H.storePtr L.mem addr 0 } := by
    simp [cast_lua_pointer, lua_type, hv, TValue.ttype]
  have hc : cast_lua_c H L i addr FFI_TYPE_POINTER
      = .ret 1 { L with mem := H.storePtr L.mem addr 0 } := by
    apply cast_lua_c_of_ret _ _ _ _ _ _ _ _ (by decide)
    rw [dispatch_pointer, hp]
  have hl : H.loadPtr (H.storePtr L.mem addr 0) addr = 0 := by
    rw [loadPtr_storePtr]; simp
  refine ⟨hc, ?_, ?_⟩
  · rw [hc]; exact hl
  · rw [hc, cast_c_lua_pointer]
    simp only [Result.state]
    rw [if_pos hl]

/-- C7, witness: the nil at index 1 of the example state. -/
theorem C7_nil_to_pointer_witness :
    index2value L0 1 = some .nil
    ∧ (cast_lua_c x86_64 L0 1 4096 FFI_TYPE_POINTER
        = .ret 1 { L0 with mem := x86_64.storePtr L0.mem 4096 0 }
      ∧ x86_64.loadPtr (cast_lua_c x86_64 L0 1 4096 FFI_TYPE_POINTER).state.mem 4096 = 0
      ∧ cast_c_lua x86_64 (cast_lua_c x86_64 L0 1 4096 FFI_TYPE_POINTER).state 4096
          FFI_TYPE_POINTER
        = (1, push (cast_lua_c x86_64 L0 1 4096 FFI_TYPE_POINTER).state .nil)) :=
  ⟨rfl, C7_nil_to_pointer x86_64 L0 1 4096 rfl⟩

/-! ## C8: an Integer with a `POINTER` destination -/

/-- C8. For every Integer source `n` and a `POINTER` destination, `cast_lua_c`
returns 1 and the address in the slot is the conversion `(void *) n`, whatever
`n` is. -/
theorem C8_integer_to_pointer (H : Host) (L : lua_State) (i : Int) (addr : Nat) (n : Int)
    (hv : index2value L i = some (.integer n)) :
    cast_lua_c H L i addr FFI_TYPE_POINTER
      = .ret 1 { L with mem := H.storePtr L.mem addr (H.int_to_pointer n) }
    ∧ H.loadPtr (cast_lua_c H L i addr FFI_TYPE_POINTER).state.mem addr
      = H.int_to_pointer n := by
  have hp : cast_lua_pointer H L i addr
      = .ret 1 { L with mem := H.storePtr L.mem addr (H.int_to_pointer n) } := by
    simp [cast_lua_pointer, lua_type, hv, TValue.ttype, luaL_checkinteger, LUA_TNIL,
      LUA_TNUMBER]
  have hc : cast_lua_c H L i addr FFI_TYPE_POINTER
      = .ret 1 { L with mem := H.storePtr L.mem addr (H.int_to_pointer n) } := by
    apply cast_lua_c_of_ret _ _ _ _ _ _ _ _ (by decide)
    rw [dispatch_pointer, hp]
  refine ⟨hc, ?_⟩
  rw [hc]
  simp only [Result.state]
  rw [loadPtr_storePtr, Nat.mod_eq_of_lt (int_to_pointer_lt H n)]

/-- C8, witness: the integer 42 at index 3 of the example state. -/
theorem C8_integer_to_pointer_witness :
    index2value L0 3 = some (.integer 42)
    ∧ (cast_lua_c x86_64 L0 3 100 FFI_TYPE_POINTER
        = .ret 1 { L0 with mem := x86_64.storePtr L0.mem 100 (x86_64.int_to_pointer 42) }
      ∧ x86_64.loadPtr (cast_lua_c x86_64 L0 3 100 FFI_TYPE_POINTER).state.mem 100
        = x86_64.int_to_pointer 42) :=
  ⟨rfl, C8_integer_to_pointer x86_64 L0 3 100 42 rfl⟩

/-! ## C9: a function value as a pointer -/

/-- C9. `cast_lua_pointer` on a function value: a Lua function, or a C function
whose code address is null, has no native code address and gives 0 with the
state untouched; a C function with a first upvalue gives 0 with memory
untouched; any other C function gives 1 and its code address is stored. -/
theorem C9_function_to_pointer (H : Host) (L : lua_State) (i : Int) (pp : Nat) :
    (∀ ups, index2value L i = some (.lclosure ups) → cast_lua_pointer H L i pp = .ret 0 L)
    ∧ (∀ ups, index2value L i = some (.cclosure 0 ups) → cast_lua_pointer H L i pp = .ret 0 L)
    ∧ (∀ f u us, index2value L i = some (.cclosure f (u :: us)) →
        (cast_lua_pointer H L i pp).value = some 0
        ∧ (cast_lua_pointer H L i pp).state.mem = L.mem)
    ∧ (∀ f, index2value L i = some (.cclosure f []) → f ≠ 0 →
        cast_lua_pointer H L i pp = .ret 1 { L with mem := H.storePtr L.mem pp f }
        ∧ (f < 256 ^ H.sizeof_pointer →
            H.loadPtr (cast_lua_pointer H L i pp).state.mem pp = f)) := by
  refine ⟨?_, ?_, ?_, ?_⟩
  · intro ups hv
    simp [cast_lua_pointer, lua_type, hv, TValue.ttype, lua_tocfunction, LUA_TNIL, LUA_TNUMBER,
      LUA_TSTRING, LUA_TFUNCTION]
  · intro ups hv
    simp [cast_lua_pointer, lua_type, hv, TValue.ttype, lua_tocfunction, LUA_TNIL, LUA_TNUMBER,
      LUA_TSTRING, LUA_TFUNCTION]
  · intro f u us hv
    by_cases hf : f = 0
    · simp [cast_lua_pointer, lua_type, hv, TValue.ttype, lua_tocfunction, LUA_TNIL,
        LUA_TNUMBER, LUA_TSTRING, LUA_TFUNCTION, hf, Result.value, Result.state]
    · simp [cast_lua_pointer, lua_type, hv, TValue.ttype, lua_tocfunction, LUA_TNIL,
        LUA_TNUMBER, LUA_TSTRING, LUA_TFUNCTION, hf, lua_getupvalue1, Result.value,
        Result.state, push]
  · intro f hv hf
    have hc : cast_lua_pointer H L i pp = .ret 1 { L with mem := H.storePtr L.mem pp f } := by
      simp [cast_lua_pointer, lua_type, hv, TValue.ttype, lua_tocfunction, LUA_TNIL,
        LUA_TNUMBER, LUA_TSTRING, LUA_TFUNCTION, hf, lua_getupvalue1]
    refine ⟨hc, ?_⟩
    intro hlt
    rw [hc]
    simp only [Result.state]
    rw [loadPtr_storePtr, Nat.mod_eq_of_lt hlt]

/-- C9, witness: the Lua function at index 8, the C closure with an upvalue
at index 7 and the light C function at index 6 of the example state. -/
theorem C9_function_to_pointer_witness :
    index2value L0 8 = some (.lclosure [])
    ∧ cast_lua_pointer x86_64 L0 8 100 = .ret 0 L0
    ∧ index2value L0 7 = some (.cclosure 7168 [.integer 5])
    ∧ (cast_lua_pointer x86_64 L0 7 100).value = some 0
    ∧ (cast_lua_pointer x86_64 L0 7 100).state.mem = L0.mem
    ∧ index2value L0 6 = some (.cclosure 7168 [])
    ∧ cast_lua_pointer x86_64 L0 6 100
        = .ret 1 { L0 with mem := x86_64.storePtr L0.mem 100 7168 }
    ∧ x86_64.loadPtr (cast_lua_pointer x86_64 L0 6 100).state.mem 100 = 7168 :=
  ⟨rfl, (C9_function_to_pointer x86_64 L0 8 100).1 [] rfl,
    rfl, ((C9_function_to_pointer x86_64 L0 7 100).2.2.1 7168 (.integer 5) [] rfl).1,
    ((C9_function_to_pointer x86_64 L0 7 100).2.2.1 7168 (.integer 5) [] rfl).2,
    rfl, ((C9_function_to_pointer x86_64 L0 6 100).2.2.2 7168 rfl (by decide)).1,
    ((C9_function_to_pointer x86_64 L0 6 100).2.2.2 7168 rfl (by decide)).2 (by decide)⟩

/-! ## C10: a CVar handle as a pointer -/

/-- C10. `cast_lua_pointer` on a full userdata at a positive index whose
metatable names it `ffi_cvar`: with an array length above 0 it gives 1 and the
address stored is the address of the CVar, whatever its tag; otherwise, with
tag `POINTER`, it gives 1 and the address stored is the pointer held at the
address of the CVar; otherwise it gives 0 and writes nothing. -/
theorem C10_cvar_to_pointer (H : Host) (L : lua_State) (i : Int) (pp p : Nat) (typ : ctype)
    (id : Nat) (fields : List (String × TValue)) (q : Nat) (hi : 0 < i)
    (hv : index2value L i = some (.userdata p typ (some (id, fields))))
    (hn : rawget fields "__name" = some (.string "ffi_cvar" q)) :
    (typ.arraysize > 0 →
      cast_lua_pointer H L i pp = .ret 1 { L with mem := H.storePtr L.mem pp p }
      ∧ (p < 256 ^ H.sizeof_pointer →
          H.loadPtr (cast_lua_pointer H L i pp).state.mem pp = p))
    ∧ (¬ typ.arraysize > 0 → typ.type = FFI_TYPE_POINTER →
      cast_lua_pointer H L i pp
        = .ret 1 { L with mem := H.storePtr L.mem pp (H.loadPtr L.mem p) }
      ∧ H.loadPtr (cast_lua_pointer H L i pp).state.mem pp = H.loadPtr L.mem p)
    ∧ (¬ typ.arraysize > 0 → typ.type ≠ FFI_TYPE_POINTER →
      (cast_lua_pointer H L i pp).value = some 0
      ∧ (cast_lua_pointer H L i pp).state.mem = L.mem) := by
  have ht : lua_type L i = LUA_TUSERDATA := lua_type_of_index L i _ hv
  have hm : luaL_getmetafield L i "__name"
      = (LUA_TSTRING, push L (.string "ffi_cvar" q)) := by
    simp [luaL_getmetafield, hv, hn, TValue.ttype]
  have hv1 := index2value_push L i _ (.string "ffi_cvar" q) hi hv
  have hs : lua_tostring (push L (.string "ffi_cvar" q)) (-1) = some ⟨q, "ffi_cvar"⟩ := by
    simp [lua_tostring, index2value_top]
  have hty : c_typeof_ (push L (.string "ffi_cvar" q)) i = typ := by
    simp [c_typeof_, hv1]
  have hud : lua_touserdata (push L (.string "ffi_cvar" q)) i = p := by
    simp [lua_touserdata, hv1]
  have hcmp : strcmp_eq (some ⟨q, "ffi_cvar"⟩) "ffi_cvar" = true := by
    simp [strcmp_eq]
  have hpop : ∀ m : Mem, lua_pop1 { push L (.string "ffi_cvar" q) with mem := m }
      = { L with mem := m } := lua_pop1_push L _
  have hunf : cast_lua_pointer H L i pp
      = if typ.arraysize > 0 then .ret 1 { L with mem := H.storePtr L.mem pp p }
        else if typ.type = FFI_TYPE_POINTER then
          .ret 1 { L with mem := H.storePtr L.mem pp (H.loadPtr L.mem p) }
        else .ret 0 (push L (.string "ffi_cvar" q)) := by
    unfold cast_lua_pointer
    simp only [ht, hm, hs, hty, hud, hcmp]
    rw [if_neg (by decide), if_neg (by decide), if_neg (by decide), if_neg (by decide),
      if_neg (by decide), if_pos trivial, if_neg (by simp), if_pos trivial]
    simp only [hpop]
    rfl
  refine ⟨?_, ?_, ?_⟩
  · intro ha
    have hc : cast_lua_pointer H L i pp = .ret 1 { L with mem := H.storePtr L.mem pp p } := by
      rw [hunf, if_pos ha]
    refine ⟨hc, ?_⟩
    intro hlt
    rw [hc]
    simp only [Result.state]
    rw [loadPtr_storePtr, Nat.mod_eq_of_lt hlt]
  · intro ha hp
    have hc : cast_lua_pointer H L i pp
        = .ret 1 { L with mem := H.storePtr L.mem pp (H.loadPtr L.mem p) } := by
      rw [hunf, if_neg ha, if_pos hp]
    refine ⟨hc, ?_⟩
    rw [hc]
    simp only [Result.state]
    rw [loadPtr_storePtr, Nat.mod_eq_of_lt (loadPtr_lt H L.mem p)]
  · intro ha hp
    rw [hunf, if_neg ha, if_neg hp]
    exact ⟨rfl, rfl⟩

/-- C10, witness: the CVar array of ten `sint32` at index 9, the scalar CVar of
tag `POINTER` at index 10 (it holds `0x1234`), and the scalar CVar of tag
`sint32` at index 11 of the example state. -/
theorem C10_cvar_to_pointer_witness :
    (0 : Int) < 9
    ∧ index2value L0 9
        = some (.userdata 2048 ⟨10, FFI_TYPE_SINT32⟩
            (some (1, [("__name", .string "ffi_cvar" 640)])))
    ∧ rawget [("__name", TValue.string "ffi_cvar" 640)] "__name"
        = some (.string "ffi_cvar" 640)
    ∧ cast_lua_pointer x86_64 L0 9 100
        = .ret 1 { L0 with mem := x86_64.storePtr L0.mem 100 2048 }
    ∧ x86_64.loadPtr (cast_lua_pointer x86_64 L0 9 100).state.mem 100 = 2048
    ∧ cast_lua_pointer x86_64 L0 10 100
        = .ret 1 { L0 with mem := x86_64.storePtr L0.mem 100 (x86_64.loadPtr L0.mem 4096) }
    ∧ x86_64.loadPtr (cast_lua_pointer x86_64 L0 10 100).state.mem 100
        = x86_64.loadPtr L0.mem 4096
    ∧ x86_64.loadPtr L0.mem 4096 = 4660
    ∧ (cast_lua_pointer x86_64 L0 11 100).value = some 0
    ∧ (cast_lua_pointer x86_64 L0 11 100).state.mem = L0.mem :=
  ⟨by decide, rfl, rfl,
    ((C10_cvar_to_pointer x86_64 L0 9 100 2048 ⟨10, FFI_TYPE_SINT32⟩ 1
        [("__name", .string "ffi_cvar" 640)] 640 (by decide) rfl rfl).1 (by decide)).1,
    ((C10_cvar_to_pointer x86_64 L0 9 100 2048 ⟨10, FFI_TYPE_SINT32⟩ 1
        [("__name", .string "ffi_cvar" 640)] 640 (by decide) rfl rfl).1 (by decide)).2
      (by decide),
    ((C10_cvar_to_pointer x86_64 L0 10 100 4096 ⟨0, FFI_TYPE_POINTER⟩ 1
        [("__name", .string "ffi_cvar" 640)] 640 (by decide) rfl rfl).2.1
      (by decide) rfl).1,
    ((C10_cvar_to_pointer x86_64 L0 10 100 4096 ⟨0, FFI_TYPE_POINTER⟩ 1
        [("__name", .string "ffi_cvar" 640)] 640 (by decide) rfl rfl).2.1
      (by decide) rfl).2,
    by decide,
    ((C10_cvar_to_pointer x86_64 L0 11 100 6144 ⟨0, FFI_TYPE_SINT32⟩ 1
        [("__name", .string "ffi_cvar" 640)] 640 (by decide) rfl rfl).2.2
      (by decide) (by decide)).1,
    ((C10_cvar_to_pointer x86_64 L0 11 100 6144 ⟨0, FFI_TYPE_SINT32⟩ 1
        [("__name", .string "ffi_cvar" 640)] 640 (by decide) rfl rfl).2.2
      (by decide) (by decide)).2⟩

/-! ## C11: Boolean and Float sources of the pointer resolver -/

/-- C11, counterexample. On the example host `cast_lua_pointer` does not
return 0 for a Float source: for the float 3.9 it raises the error of
`luaL_checkinteger`, and for the float 3.0 it returns 1 and stores the
address 3. -/
theorem C11_float_raises_or_resolves :
    index2value L0 4 = some (.float float_3_9)
    ∧ (cast_lua_pointer x86_64 L0 4 100).value = none
    ∧ (cast_lua_pointer x86_64 L0 4 100).error
      = some ⟨4, "number has no integer representation"⟩
    ∧ index2value L1 1 = some (.float (.finite 3 0))
    ∧ (cast_lua_pointer x86_64 L1 1 100).value = some 1
    ∧ x86_64.loadPtr (cast_lua_pointer x86_64 L1 1 100).state.mem 100 = 3 :=
  ⟨rfl, by decide, by decide, rfl, by decide, by decide⟩

/-- C11, as amended. For every Boolean source `cast_lua_pointer` returns 0,
raising nothing and leaving the state as it was. A Float source is a number:
when it has an integer representation `v` within `lua_Integer`, the call
returns 1 and stores the address `(void *) v`; when it has none,
`luaL_checkinteger` raises its argument error. -/
theorem C11_boolean_and_float_sources (H : Host) (L : lua_State) (i : Int) (pp : Nat) :
    (∀ b, index2value L i = some (.boolean b) → cast_lua_pointer H L i pp = .ret 0 L)
    ∧ (∀ x v, index2value L i = some (.float x) → tointeger H (.float x) = some v →
        cast_lua_pointer H L i pp
          = .ret 1 { L with mem := H.storePtr L.mem pp (H.int_to_pointer v) })
    ∧ (∀ x, index2value L i = some (.float x) → tointeger H (.float x) = none →
        cast_lua_pointer H L i pp
          = .raise ⟨i, "number has no integer representation"⟩ L) := by
  refine ⟨?_, ?_, ?_⟩
  · intro b hv
    simp [cast_lua_pointer, lua_type, hv, TValue.ttype, LUA_TNIL, LUA_TNUMBER, LUA_TSTRING,
      LUA_TBOOLEAN, LUA_TFUNCTION, LUA_TLIGHTUSERDATA, LUA_TUSERDATA]
  · intro x v hv ht
    simp [cast_lua_pointer, lua_type, hv, TValue.ttype, luaL_checkinteger, ht, LUA_TNIL,
      LUA_TNUMBER]
  · intro x hv ht
    simp [cast_lua_pointer, lua_type, hv, TValue.ttype, luaL_checkinteger, ht, luaL_argerror,
      LUA_TNIL, LUA_TNUMBER]

/-- C11, witness: `true` at index 2 and the float 3.9 at index 4 of the first
example state, the float 3.0 at index 1 of the second. -/
theorem C11_boolean_and_float_sources_witness :
    index2value L0 2 = some (.boolean true)
    ∧ cast_lua_pointer x86_64 L0 2 100 = .ret 0 L0
    ∧ index2value L1 1 = some (.float (.finite 3 0))
    ∧ tointeger x86_64 (.float (.finite 3 0)) = some 3
    ∧ cast_lua_pointer x86_64 L1 1 100
        = .ret 1 { L1 with mem := x86_64.storePtr L1.mem 100 (x86_64.int_to_pointer 3) }
    ∧ index2value L0 4 = some (.float float_3_9)
    ∧ tointeger x86_64 (.float float_3_9) = none
    ∧ cast_lua_pointer x86_64 L0 4 100
        = .raise ⟨4, "number has no integer representation"⟩ L0 :=
  ⟨rfl, (C11_boolean_and_float_sources x86_64 L0 2 100).1 true rfl,
    rfl, by decide,
    (C11_boolean_and_float_sources x86_64 L1 1 100).2.1 (.finite 3 0) 3 rfl (by decide),
    rfl, by decide,
    (C11_boolean_and_float_sources x86_64 L0 4 100).2.2 float_3_9 rfl (by decide)⟩

/-! ## Facts about integer slots -/

/-- What the integer writer does with an integer tag: it stores the bit
pattern of `n` at the width of the tag. -/
theorem cast_int_c_int_tag (H : Host) (n : Int) (addr : Nat) (T : Int) (m : Mem)
    (hT : int_tag T) :
    cast_int_c H n addr T m
      = (1, store m addr (tag_width H T) (toBits (8 * tag_width H T) n)) := by
  rcases hT with h | h | h | h | h | h | h | h <;> subst h <;>
    simp [cast_int_c, tag_width, FFI_TYPE_UINT8, FFI_TYPE_SINT8, FFI_TYPE_UINT16,
      FFI_TYPE_SINT16, FFI_TYPE_UINT32, FFI_TYPE_SINT32, FFI_TYPE_UINT64, FFI_TYPE_SINT64,
      FFI_TYPE_FLOAT]

/-- The integer a slot holds after the integer writer wrote `n` into it. -/
theorem slot_value_cast_int_c (H : Host) (n : Int) (addr : Nat) (T : Int) (m : Mem)
    (hT : int_tag T) :
    slot_value H T (cast_int_c H n addr T m).2 addr
      = if tag_signed T then toSigned (8 * tag_width H T) (toBits (8 * tag_width H T) n)
        else (toBits (8 * tag_width H T) n : Int) := by
  rw [cast_int_c_int_tag H n addr T m hT]
  simp only [slot_value, load_store_toBits]

theorem toBits_eq_emod (w : Nat) (n : Int) : (toBits w n : Int) = n % 2 ^ w := by
  unfold toBits
  rw [Int.toNat_of_nonneg (Int.emod_nonneg n (by positivity))]

/-- A signed reading lies in the signed range and agrees with the bit pattern
modulo `2 ^ w`. -/
theorem toSigned_spec (w : Nat) (hw : 0 < w) (u : Nat) (hu : u < 2 ^ w) :
    -(2 ^ (w - 1) : Int) ≤ toSigned w u ∧ toSigned w u < 2 ^ (w - 1)
    ∧ toSigned w u % 2 ^ w = (u : Int) % 2 ^ w := by
  have hp : (2 : Int) ^ w = 2 * 2 ^ (w - 1) := by
    rw [← pow_succ']; congr 1; omega
  have hpos : (0 : Int) < 2 ^ (w - 1) := by positivity
  have hu' : (u : Int) < 2 ^ w := by exact_mod_cast hu
  unfold toSigned
  by_cases h : u < 2 ^ (w - 1)
  · have h' : (u : Int) < 2 ^ (w - 1) := by exact_mod_cast h
    rw [if_pos h]
    exact ⟨by omega, h', rfl⟩
  · have h' : (2 : Int) ^ (w - 1) ≤ u := by
      have : 2 ^ (w - 1) ≤ u := Nat.le_of_not_lt h
      exact_mod_cast this
    rw [if_neg h]
    refine ⟨by omega, by omega, ?_⟩
    rw [Int.sub_emod, Int.emod_self, sub_zero, Int.emod_emod]

/-- The two values a Boolean converts to fit every integer slot. -/
theorem slot_value_bool (H : Host) (b : Bool) (addr : Nat) (T : Int) (m : Mem)
    (hT : int_tag T) :
    slot_value H T (cast_int_c H (if b then 1 else 0) addr T m).2 addr
      = if b then 1 else 0 := by
  rw [slot_value_cast_int_c H _ addr T m hT]
  rcases hT with h | h | h | h | h | h | h | h <;> subst h <;> cases b <;>
    simp [tag_signed, tag_width, toSigned, toBits, FFI_TYPE_UINT8, FFI_TYPE_SINT8,
      FFI_TYPE_UINT16, FFI_TYPE_SINT16, FFI_TYPE_UINT32, FFI_TYPE_SINT32, FFI_TYPE_UINT64,
      FFI_TYPE_SINT64, FFI_TYPE_FLOAT]

theorem int_tag_scalar (T : Int) (h : int_tag T) : scalar_tag T := by
  unfold scalar_tag
  rcases h with h | h | h | h | h | h | h | h <;> simp [h]

/-- With a scalar destination, a Boolean source goes to `cast_int_c` as 0 or 1. -/
theorem dispatch_boolean (H : Host) (L : lua_State) (i : Int) (addr : Nat) (type : Int)
    (b : Bool) (ht : type ≠ FFI_TYPE_POINTER) (hv : index2value L i = some (.boolean b)) :
    cast_lua_c_dispatch H L i addr type
      = written L (cast_int_c H (if b then 1 else 0) addr type L.mem) := by
  have h1 : lua_type L i = LUA_TBOOLEAN := lua_type_of_index L i _ hv
  have h2 : lua_toboolean L i = if b then 1 else 0 := by
    cases b <;> simp [lua_toboolean, hv]
  unfold cast_lua_c_dispatch
  simp only [h1, h2, if_neg ht]
  rw [if_pos trivial]

/-! ## C12: a Boolean with an integer destination -/

/-- C12. For every Boolean source `b` and every integer tag, `cast_lua_c`
returns 1 and the slot, read with the width and signedness of the tag, holds 1
if `b` is true and 0 if `b` is false. -/
theorem C12_boolean_to_integer_slot (H : Host) (L : lua_State) (i : Int) (addr : Nat)
    (T : Int) (b : Bool) (hT : int_tag T) (hv : index2value L i = some (.boolean b)) :
    cast_lua_c H L i addr T
      = .ret 1 { L with mem := (cast_int_c H (if b then 1 else 0) addr T L.mem).2 }
    ∧ slot_value H T (cast_lua_c H L i addr T).state.mem addr = if b then 1 else 0 := by
  have hs := int_tag_scalar T hT
  have hd := dispatch_boolean H L i addr T b (scalar_tag_ne_pointer T hs) hv
  have hc : cast_lua_c H L i addr T
      = .ret 1 { L with mem := (cast_int_c H (if b then 1 else 0) addr T L.mem).2 } := by
    apply cast_lua_c_of_ret _ _ _ _ _ _ _ _ (by decide)
    rw [hd, written, cast_int_c_scalar H _ addr T L.mem hs]
  refine ⟨hc, ?_⟩
  rw [hc]
  exact slot_value_bool H b addr T L.mem hT

/-- C12, witness: `true` into a `uint8` slot gives 1, `false` into a `sint32`
slot gives 0. -/
theorem C12_boolean_to_integer_slot_witness :
    int_tag FFI_TYPE_UINT8 ∧ index2value L0 2 = some (.boolean true)
    ∧ slot_value x86_64 FFI_TYPE_UINT8 (cast_lua_c x86_64 L0 2 6144 FFI_TYPE_UINT8).state.mem 6144
        = 1
    ∧ int_tag FFI_TYPE_SINT32 ∧ index2value L1 2 = some (.boolean false)
    ∧ slot_value x86_64 FFI_TYPE_SINT32
        (cast_lua_c x86_64 L1 2 6144 FFI_TYPE_SINT32).state.mem 6144 = 0 :=
  ⟨by decide, rfl,
    (C12_boolean_to_integer_slot x86_64 L0 2 6144 FFI_TYPE_UINT8 true (by decide) rfl).2,
    by decide, rfl,
    (C12_boolean_to_integer_slot x86_64 L1 2 6144 FFI_TYPE_SINT32 false (by decide) rfl).2⟩

/-! ## Facts about `cast_c_lua` -/

/-- Whatever the tag, `cast_c_lua` pushes one value and changes nothing else. -/
theorem cast_c_lua_pushes (H : Host) (L : lua_State) (addr : Nat) (type : Int) :
    ∃ v, (cast_c_lua H L addr type).2 = push L v := by
  unfold cast_c_lua
  by_cases h0 : type = FFI_TYPE_UINT8
  · rw [if_pos h0]; exact ⟨_, rfl⟩
  rw [if_neg h0]
  by_cases h1 : type = FFI_TYPE_SINT8
  · rw [if_pos h1]; exact ⟨_, rfl⟩
  rw [if_neg h1]
  by_cases h2 : type = FFI_TYPE_UINT16
  · rw [if_pos h2]; exact ⟨_, rfl⟩
  rw [if_neg h2]
  by_cases h3 : type = FFI_TYPE_SINT16
  · rw [if_pos h3]; exact ⟨_, rfl⟩
  rw [if_neg h3]
  by_cases h4 : INT32_MAX ≤ H.LUA_MAXINTEGER ∧ type = FFI_TYPE_SINT32
  · rw [if_pos h4]; exact ⟨_, rfl⟩
  rw [if_neg h4]
  by_cases h5 : INT32_MAX ≤ H.LUA_MAXINTEGER ∧ type = FFI_TYPE_UINT32
  · rw [if_pos h5]; exact ⟨_, rfl⟩
  rw [if_neg h5]
  by_cases h6 : INT64_MAX ≤ H.LUA_MAXINTEGER ∧ type = FFI_TYPE_SINT64
  · rw [if_pos h6]; exact ⟨_, rfl⟩
  rw [if_neg h6]
  by_cases h7 : INT64_MAX ≤ H.LUA_MAXINTEGER ∧ type = FFI_TYPE_UINT64
  · rw [if_pos h7]; exact ⟨_, rfl⟩
  rw [if_neg h7]
  by_cases h8 : type = FFI_TYPE_FLOAT
  · rw [if_pos h8]; exact ⟨_, rfl⟩
  rw [if_neg h8]
  by_cases h9 : type = FFI_TYPE_DOUBLE
  · rw [if_pos h9]; exact ⟨_, rfl⟩
  rw [if_neg h9]
  by_cases h10 : H.LUA_FLOAT_TYPE = LUA_FLOAT_LONGDOUBLE ∧ type = FFI_TYPE_LONGDOUBLE
  · rw [if_pos h10]; exact ⟨_, rfl⟩
  rw [if_neg h10]
  by_cases hp : type = FFI_TYPE_POINTER
  · rw [if_pos hp]
    by_cases hz : H.loadPtr L.mem addr = 0
    · simp only [hz, if_true]; exact ⟨_, rfl⟩
    · simp only [hz, if_false]; exact ⟨_, rfl⟩
  rw [if_neg hp]
  exact ⟨_, rfl⟩

/-- On a tag it has no case for, `cast_c_lua` pushes nil and returns 0. -/
theorem cast_c_lua_disabled (H : Host) (L : lua_State) (addr : Nat) (type : Int)
    (h : ¬ out_tag_enabled H type) : cast_c_lua H L addr type = (0, push L .nil) := by
  simp only [out_tag_enabled, int_tag_enabled, not_or] at h
  obtain ⟨⟨a1, a2, a3, a4, a5, a6⟩, a7, a8, a9, a10⟩ := h
  unfold cast_c_lua
  rw [if_neg a1, if_neg a2, if_neg a3, if_neg a4,
    if_neg (fun hc => a5 ⟨hc.1, Or.inl hc.2⟩), if_neg (fun hc => a5 ⟨hc.1, Or.inr hc.2⟩),
    if_neg (fun hc => a6 ⟨hc.1, Or.inl hc.2⟩), if_neg (fun hc => a6 ⟨hc.1, Or.inr hc.2⟩),
    if_neg a7, if_neg a8, if_neg a9, if_neg a10]

/-- On a tag it has a case for, `cast_c_lua` returns 1. -/
theorem cast_c_lua_enabled (H : Host) (L : lua_State) (addr : Nat) (type : Int)
    (h : out_tag_enabled H type) : (cast_c_lua H L addr type).1 = 1 := by
  rcases h with (h | h | h | h | ⟨hc, h | h⟩ | ⟨hc, h | h⟩) | h | h | ⟨hc, h⟩ | h
  all_goals subst h
  case inr.inr.inr.inr =>
    rw [cast_c_lua_pointer]
    split_ifs <;> rfl
  all_goals
    simp [cast_c_lua, FFI_TYPE_UINT8, FFI_TYPE_SINT8, FFI_TYPE_UINT16, FFI_TYPE_SINT16,
      FFI_TYPE_UINT32, FFI_TYPE_SINT32, FFI_TYPE_UINT64, FFI_TYPE_SINT64, FFI_TYPE_FLOAT,
      FFI_TYPE_DOUBLE, FFI_TYPE_LONGDOUBLE, *]

/-! ## C13: `cast_c_lua` on any tag -/

/-- C13. For every tag value `cast_c_lua` pushes exactly one value and leaves
the rest of the state alone; it returns 0 or 1, and 0 exactly when the tag is
not an enabled scalar tag or `POINTER`; when it returns 0 the value pushed is
nil. -/
theorem C13_cast_c_lua_always_pushes (H : Host) (L : lua_State) (addr : Nat) (type : Int) :
    ∃ v, (cast_c_lua H L addr type).2 = push L v
      ∧ ((cast_c_lua H L addr type).1 = 0 ∨ (cast_c_lua H L addr type).1 = 1)
      ∧ ((cast_c_lua H L addr type).1 = 0 ↔ ¬ out_tag_enabled H type)
      ∧ ((cast_c_lua H L addr type).1 = 0 → v = .nil) := by
  by_cases h : out_tag_enabled H type
  · obtain ⟨v, hv⟩ := cast_c_lua_pushes H L addr type
    have h1 := cast_c_lua_enabled H L addr type h
    refine ⟨v, hv, Or.inr h1, ?_, ?_⟩
    · rw [h1]
      exact ⟨fun h0 => absurd h0 (by decide), fun hn => absurd h hn⟩
    · rw [h1]
      intro h0
      exact absurd h0 (by decide)
  · have hd := cast_c_lua_disabled H L addr type h
    refine ⟨.nil, by rw [hd], Or.inl (by rw [hd]), ?_, fun _ => rfl⟩
    rw [hd]
    exact ⟨fun _ => h, fun _ => rfl⟩

/-! ## C14: reading a `POINTER` slot -/

/-- C14. For a slot of tag `POINTER`, `cast_c_lua` returns 1; it pushes nil
when the stored address is null and otherwise a light userdata carrying
exactly the stored address. -/
theorem C14_pointer_slot_read (H : Host) (L : lua_State) (addr : Nat) :
    (H.loadPtr L.mem addr = 0 → cast_c_lua H L addr FFI_TYPE_POINTER = (1, push L .nil))
    ∧ (H.loadPtr L.mem addr ≠ 0 →
        cast_c_lua H L addr FFI_TYPE_POINTER
          = (1, push L (.lightuserdata (H.loadPtr L.mem addr)))) := by
  rw [cast_c_lua_pointer]
  constructor
  · intro h; rw [if_pos h]
  · intro h; rw [if_neg h]

/-- C14, witness: in the first example state the slot at 100 is null and the
slot at 4096 holds `0x1234`. -/
theorem C14_pointer_slot_read_witness :
    x86_64.loadPtr L0.mem 100 = 0
    ∧ cast_c_lua x86_64 L0 100 FFI_TYPE_POINTER = (1, push L0 .nil)
    ∧ x86_64.loadPtr L0.mem 4096 = 4660
    ∧ cast_c_lua x86_64 L0 4096 FFI_TYPE_POINTER
        = (1, push L0 (.lightuserdata (x86_64.loadPtr L0.mem 4096))) :=
  ⟨by decide, (C14_pointer_slot_read x86_64 L0 100).1 (by decide), by decide,
    (C14_pointer_slot_read x86_64 L0 4096).2 (by decide)⟩

/-- C13, witness: the tag `FFI_TYPE_STRUCT`, for which `cast_c_lua` has no
case, on the example host and state. -/
theorem C13_cast_c_lua_always_pushes_witness :
    ∃ v, (cast_c_lua x86_64 L0 100 FFI_TYPE_STRUCT).2 = push L0 v
      ∧ ((cast_c_lua x86_64 L0 100 FFI_TYPE_STRUCT).1 = 0
          ∨ (cast_c_lua x86_64 L0 100 FFI_TYPE_STRUCT).1 = 1)
      ∧ ((cast_c_lua x86_64 L0 100 FFI_TYPE_STRUCT).1 = 0
          ↔ ¬ out_tag_enabled x86_64 FFI_TYPE_STRUCT)
      ∧ ((cast_c_lua x86_64 L0 100 FFI_TYPE_STRUCT).1 = 0 → v = .nil) :=
  C13_cast_c_lua_always_pushes x86_64 L0 100 FFI_TYPE_STRUCT

/-! ## Facts about the tags the scalar writers accept -/

/-- The integer writer returns 0 and writes nothing on any other tag. -/
theorem cast_int_c_other (H : Host) (n : Int) (addr : Nat) (type : Int) (m : Mem)
    (h : ¬ scalar_tag type) : cast_int_c H n addr type m = (0, m) := by
  simp only [scalar_tag, not_or] at h
  obtain ⟨a1, a2, a3, a4, a5, a6, a7, a8, a9, a10, a11⟩ := h
  unfold cast_int_c
  rw [if_neg a1, if_neg a2, if_neg a3, if_neg a4, if_neg a5, if_neg a6, if_neg a7, if_neg a8,
    if_neg a9, if_neg a10, if_neg a11]

/-- The float writer returns 0 and writes nothing on any other tag. -/
theorem cast_number_c_other (H : Host) (x : lua_Number) (addr : Nat) (type : Int) (m : Mem)
    (h : ¬ scalar_tag type) : cast_number_c H x addr type m = (0, m) := by
  simp only [scalar_tag, not_or] at h
  obtain ⟨a1, a2, a3, a4, a5, a6, a7, a8, a9, a10, a11⟩ := h
  unfold cast_number_c
  rw [if_neg a1, if_neg a2, if_neg a3, if_neg a4, if_neg a5, if_neg a6, if_neg a7, if_neg a8,
    if_neg a9, if_neg a10, if_neg a11]

/-- Every scalar tag `cast_c_lua` has a case for is one of the eleven. -/
theorem out_tag_enabled_scalar (H : Host) (type : Int) (h : out_tag_enabled H type)
    (hp : type ≠ FFI_TYPE_POINTER) : scalar_tag type := by
  unfold scalar_tag
  rcases h with (h | h | h | h | ⟨_, h | h⟩ | ⟨_, h | h⟩) | h | h | ⟨_, h⟩ | h
  all_goals first | exact absurd h hp | simp [h]

/-! ## C15: disabled tags -/

/-- C15, counterexample. On the example host, where `lua_Number` is `double`,
the tag `long double` is disabled: `cast_c_lua` returns 0 on it, yet
`cast_int_c`, `cast_number_c` and `cast_lua_c` return 1. On a host with a
32-bit `lua_Integer` the same holds of the tag `uint64`. -/
theorem C15_inbound_accepts_disabled_tags :
    ¬ out_tag_enabled x86_64 FFI_TYPE_LONGDOUBLE
    ∧ (cast_c_lua x86_64 L0 100 FFI_TYPE_LONGDOUBLE).1 = 0
    ∧ (cast_int_c x86_64 42 100 FFI_TYPE_LONGDOUBLE L0.mem).1 = 1
    ∧ (cast_number_c x86_64 float_3_9 100 FFI_TYPE_LONGDOUBLE L0.mem).1 = 1
    ∧ (cast_lua_c x86_64 L0 3 100 FFI_TYPE_LONGDOUBLE).value = some 1
    ∧ ¬ out_tag_enabled lua32 FFI_TYPE_UINT64
    ∧ (cast_c_lua lua32 L0 100 FFI_TYPE_UINT64).1 = 0
    ∧ (cast_int_c lua32 42 100 FFI_TYPE_UINT64 L0.mem).1 = 1
    ∧ (cast_number_c lua32 float_3_9 100 FFI_TYPE_UINT64 L0.mem).1 = 1
    ∧ (cast_lua_c lua32 L0 3 100 FFI_TYPE_UINT64).value = some 1 := by
  refine ⟨by decide, by decide, by decide, by decide, by decide, by decide, by decide,
    by decide, by decide, by decide⟩

/-- C15, as amended. Tags are disabled on the outbound path only. On a tag
disabled in the configuration `cast_c_lua` returns 0 and pushes nil, while
`cast_int_c` and `cast_number_c` return 1 on each of the eleven scalar tags in
every configuration and `cast_lua_c` returns 1 on them for a Number source; so
every scalar tag the outbound path accepts is accepted by the inbound path. -/
theorem C15_gating_is_outbound_only (H : Host) (L : lua_State) (i : Int) (addr : Nat)
    (type n : Int) (x : lua_Number) (m : Mem) :
    (scalar_tag type →
      (cast_int_c H n addr type m).1 = 1 ∧ (cast_number_c H x addr type m).1 = 1)
    ∧ (scalar_tag type → index2value L i = some (.integer n) →
        (cast_lua_c H L i addr type).value = some 1)
    ∧ (scalar_tag type → index2value L i = some (.float x) →
        (cast_lua_c H L i addr type).value = some 1)
    ∧ (¬ out_tag_enabled H type → cast_c_lua H L addr type = (0, push L .nil))
    ∧ (out_tag_enabled H type → type ≠ FFI_TYPE_POINTER → scalar_tag type) := by
  refine ⟨fun hs => ⟨cast_int_c_scalar H n addr type m hs, cast_number_c_scalar H x addr type m hs⟩,
    ?_, ?_, cast_c_lua_disabled H L addr type, out_tag_enabled_scalar H type⟩
  · intro hs hv
    have hd := dispatch_integer H L i addr type n (scalar_tag_ne_pointer type hs) hv
    rw [cast_lua_c_of_ret H L i addr type 1 { L with mem := (cast_int_c H n addr type L.mem).2 }
      (by rw [hd, written, cast_int_c_scalar H n addr type L.mem hs]) (by decide)]
    rfl
  · intro hs hv
    have hd := dispatch_float H L i addr type x (scalar_tag_ne_pointer type hs) hv
    rw [cast_lua_c_of_ret H L i addr type 1
      { L with mem := (cast_number_c H x addr type L.mem).2 }
      (by rw [hd, written, cast_number_c_scalar H x addr type L.mem hs]) (by decide)]
    rfl

/-- C15, witness: the tag `long double` on the example host. -/
theorem C15_gating_is_outbound_only_witness :
    scalar_tag FFI_TYPE_LONGDOUBLE
    ∧ ¬ out_tag_enabled x86_64 FFI_TYPE_LONGDOUBLE
    ∧ index2value L0 3 = some (.integer 42)
    ∧ ((cast_int_c x86_64 42 100 FFI_TYPE_LONGDOUBLE L0.mem).1 = 1
        ∧ (cast_number_c x86_64 float_3_9 100 FFI_TYPE_LONGDOUBLE L0.mem).1 = 1)
    ∧ (cast_lua_c x86_64 L0 3 100 FFI_TYPE_LONGDOUBLE).value = some 1
    ∧ cast_c_lua x86_64 L0 100 FFI_TYPE_LONGDOUBLE = (0, push L0 .nil) :=
  ⟨by decide, by decide, rfl,
    (C15_gating_is_outbound_only x86_64 L0 3 100 FFI_TYPE_LONGDOUBLE 42 float_3_9 L0.mem).1
      (by decide),
    (C15_gating_is_outbound_only x86_64 L0 3 100 FFI_TYPE_LONGDOUBLE 42 float_3_9 L0.mem).2.1
      (by decide) rfl,
    (C15_gating_is_outbound_only x86_64 L0 3 100 FFI_TYPE_LONGDOUBLE 42 float_3_9 L0.mem).2.2.2.1
      (by decide)⟩

/-! ## C16: two's-complement truncation -/

/-- C16. For every integer `n` and every integer tag `T` of width `w` bits,
`cast_int_c` returns 1, the bytes of the slot hold the bit pattern
`n mod 2 ^ w`, and the slot read with the signedness of `T` holds the one
value of the range of `T` that is congruent to `n` modulo `2 ^ w`. -/
theorem C16_twos_complement_truncation (H : Host) (n : Int) (addr : Nat) (T : Int) (m : Mem)
    (hT : int_tag T) :
    (cast_int_c H n addr T m).1 = 1
    ∧ (load (cast_int_c H n addr T m).2 addr (tag_width H T) : Int)
        = n % 2 ^ (8 * tag_width H T)
    ∧ tag_min T ≤ slot_value H T (cast_int_c H n addr T m).2 addr
    ∧ slot_value H T (cast_int_c H n addr T m).2 addr ≤ tag_max T
    ∧ slot_value H T (cast_int_c H n addr T m).2 addr % 2 ^ (8 * tag_width H T)
        = n % 2 ^ (8 * tag_width H T)
    ∧ ∀ v : Int, tag_min T ≤ v → v ≤ tag_max T →
        v % 2 ^ (8 * tag_width H T) = n % 2 ^ (8 * tag_width H T) →
        v = slot_value H T (cast_int_c H n addr T m).2 addr := by
  have hsv := slot_value_cast_int_c H n addr T m hT
  have hld : (load (cast_int_c H n addr T m).2 addr (tag_width H T) : Int)
      = n % 2 ^ (8 * tag_width H T) := by
    rw [cast_int_c_int_tag H n addr T m hT]
    simp only [load_store_toBits, toBits_eq_emod]
  have hrc : (cast_int_c H n addr T m).1 = 1 := by rw [cast_int_c_int_tag H n addr T m hT]
  refine ⟨hrc, hld, ?_⟩
  generalize slot_value H T (cast_int_c H n addr T m).2 addr = s at hsv
  rcases hT with h | h | h | h | h | h | h | h <;> subst h
  · have h1 := toBits_lt 8 n
    have h2 := toBits_eq_emod 8 n
    simp [tag_min, tag_max, tag_signed, tag_width, FFI_TYPE_UINT8, FFI_TYPE_SINT8, FFI_TYPE_UINT16, FFI_TYPE_SINT16,
        FFI_TYPE_UINT32, FFI_TYPE_SINT32, FFI_TYPE_UINT64, FFI_TYPE_SINT64, FFI_TYPE_FLOAT] at hsv ⊢
    norm_num at h1 h2
    refine ⟨by omega, by omega, by omega, fun v a b c => by omega⟩
  · obtain ⟨h1, h2, h3⟩ := toSigned_spec 8 (by decide) (toBits 8 n) (toBits_lt 8 n)
    have h4 := toBits_eq_emod 8 n
    simp [tag_min, tag_max, tag_signed, tag_width, FFI_TYPE_UINT8, FFI_TYPE_SINT8, FFI_TYPE_UINT16, FFI_TYPE_SINT16,
        FFI_TYPE_UINT32, FFI_TYPE_SINT32, FFI_TYPE_UINT64, FFI_TYPE_SINT64, FFI_TYPE_FLOAT] at hsv ⊢
    norm_num at h1 h2 h3 h4
    refine ⟨by omega, by omega, by omega, fun v a b c => by omega⟩
  · have h1 := toBits_lt 16 n
    have h2 := toBits_eq_emod 16 n
    simp [tag_min, tag_max, tag_signed, tag_width, FFI_TYPE_UINT8, FFI_TYPE_SINT8, FFI_TYPE_UINT16, FFI_TYPE_SINT16,
        FFI_TYPE_UINT32, FFI_TYPE_SINT32, FFI_TYPE_UINT64, FFI_TYPE_SINT64, FFI_TYPE_FLOAT] at hsv ⊢
    norm_num at h1 h2
    refine ⟨by omega, by omega, by omega, fun v a b c => by omega⟩
  · obtain ⟨h1, h2, h3⟩ := toSigned_spec 16 (by decide) (toBits 16 n) (toBits_lt 16 n)
    have h4 := toBits_eq_emod 16 n
    simp [tag_min, tag_max, tag_signed, tag_width, FFI_TYPE_UINT8, FFI_TYPE_SINT8, FFI_TYPE_UINT16, FFI_TYPE_SINT16,
        FFI_TYPE_UINT32, FFI_TYPE_SINT32, FFI_TYPE_UINT64, FFI_TYPE_SINT64, FFI_TYPE_FLOAT] at hsv ⊢
    norm_num at h1 h2 h3 h4
    refine ⟨by omega, by omega, by omega, fun v a b c => by omega⟩
  · have h1 := toBits_lt 32 n
    have h2 := toBits_eq_emod 32 n
    simp [tag_min, tag_max, tag_signed, tag_width, FFI_TYPE_UINT8, FFI_TYPE_SINT8, FFI_TYPE_UINT16, FFI_TYPE_SINT16,
        FFI_TYPE_UINT32, FFI_TYPE_SINT32, FFI_TYPE_UINT64, FFI_TYPE_SINT64, FFI_TYPE_FLOAT] at hsv ⊢
    norm_num at h1 h2
    refine ⟨by omega, by omega, by omega, fun v a b c => by omega⟩
  · obtain ⟨h1, h2, h3⟩ := toSigned_spec 32 (by decide) (toBits 32 n) (toBits_lt 32 n)
    have h4 := toBits_eq_emod 32 n
    simp [tag_min, tag_max, tag_signed, tag_width, FFI_TYPE_UINT8, FFI_TYPE_SINT8, FFI_TYPE_UINT16, FFI_TYPE_SINT16,
        FFI_TYPE_UINT32, FFI_TYPE_SINT32, FFI_TYPE_UINT64, FFI_TYPE_SINT64, FFI_TYPE_FLOAT] at hsv ⊢
    norm_num at h1 h2 h3 h4
    refine ⟨by omega, by omega, by omega, fun v a b c => by omega⟩
  · have h1 := toBits_lt 64 n
    have h2 := toBits_eq_emod 64 n
    simp [tag_min, tag_max, tag_signed, tag_width, FFI_TYPE_UINT8, FFI_TYPE_SINT8, FFI_TYPE_UINT16, FFI_TYPE_SINT16,
        FFI_TYPE_UINT32, FFI_TYPE_SINT32, FFI_TYPE_UINT64, FFI_TYPE_SINT64, FFI_TYPE_FLOAT] at hsv ⊢
    norm_num at h1 h2
    refine ⟨by omega, by omega, by omega, fun v a b c => by omega⟩
  · obtain ⟨h1, h2, h3⟩ := toSigned_spec 64 (by decide) (toBits 64 n) (toBits_lt 64 n)
    have h4 := toBits_eq_emod 64 n
    simp [tag_min, tag_max, tag_signed, tag_width, FFI_TYPE_UINT8, FFI_TYPE_SINT8, FFI_TYPE_UINT16, FFI_TYPE_SINT16,
        FFI_TYPE_UINT32, FFI_TYPE_SINT32, FFI_TYPE_UINT64, FFI_TYPE_SINT64, FFI_TYPE_FLOAT] at hsv ⊢
    norm_num at h1 h2 h3 h4
    refine ⟨by omega, by omega, by omega, fun v a b c => by omega⟩

/-- C16, witness: 200 written into a `sint8` slot reads as -56. -/
theorem C16_twos_complement_truncation_witness :
    int_tag FFI_TYPE_SINT8
    ∧ (cast_int_c x86_64 200 100 FFI_TYPE_SINT8 L0.mem).1 = 1
    ∧ tag_min FFI_TYPE_SINT8 ≤ -56 ∧ (-56 : Int) ≤ tag_max FFI_TYPE_SINT8
    ∧ (-56 : Int) % 2 ^ (8 * tag_width x86_64 FFI_TYPE_SINT8)
        = 200 % 2 ^ (8 * tag_width x86_64 FFI_TYPE_SINT8)
    ∧ (-56 : Int)
        = slot_value x86_64 FFI_TYPE_SINT8 (cast_int_c x86_64 200 100 FFI_TYPE_SINT8 L0.mem).2 100 :=
  ⟨by decide, (C16_twos_complement_truncation x86_64 200 100 FFI_TYPE_SINT8 L0.mem (by decide)).1,
    by decide, by decide, by decide,
    (C16_twos_complement_truncation x86_64 200 100 FFI_TYPE_SINT8 L0.mem (by decide)).2.2.2.2.2
      (-56) (by decide) (by decide) (by decide)⟩

/-! ## C17: the tags the two scalar writers accept -/

/-- C17. `cast_int_c` and `cast_number_c` accept the same tags: each returns 1
on the eight integer tags and the three float tags, and on every other tag,
`POINTER` among them, each returns 0 and leaves memory as it was. -/
theorem C17_writers_accept_same_tags (H : Host) (n : Int) (x : lua_Number) (addr : Nat)
    (type : Int) (m : Mem) :
    (scalar_tag type →
      (cast_int_c H n addr type m).1 = 1 ∧ (cast_number_c H x addr type m).1 = 1)
    ∧ (¬ scalar_tag type →
      cast_int_c H n addr type m = (0, m) ∧ cast_number_c H x addr type m = (0, m))
    ∧ ((cast_int_c H n addr type m).1 = 1 ↔ (cast_number_c H x addr type m).1 = 1)
    ∧ ¬ scalar_tag FFI_TYPE_POINTER := by
  refine ⟨fun hs => ⟨cast_int_c_scalar H n addr type m hs, cast_number_c_scalar H x addr type m hs⟩,
    fun hs => ⟨cast_int_c_other H n addr type m hs, cast_number_c_other H x addr type m hs⟩,
    ?_, by decide⟩
  by_cases hs : scalar_tag type
  · simp [cast_int_c_scalar H n addr type m hs, cast_number_c_scalar H x addr type m hs]
  · simp [cast_int_c_other H n addr type m hs, cast_number_c_other H x addr type m hs]

/-- C17, witness: the tags `double` and `POINTER` on the example host. -/
theorem C17_writers_accept_same_tags_witness :
    scalar_tag FFI_TYPE_DOUBLE
    ∧ ((cast_int_c x86_64 42 100 FFI_TYPE_DOUBLE L0.mem).1 = 1
        ∧ (cast_number_c x86_64 float_3_9 100 FFI_TYPE_DOUBLE L0.mem).1 = 1)
    ∧ ¬ scalar_tag FFI_TYPE_POINTER
    ∧ (cast_int_c x86_64 42 100 FFI_TYPE_POINTER L0.mem = (0, L0.mem)
        ∧ cast_number_c x86_64 float_3_9 100 FFI_TYPE_POINTER L0.mem = (0, L0.mem)) :=
  ⟨by decide,
    (C17_writers_accept_same_tags x86_64 42 float_3_9 100 FFI_TYPE_DOUBLE L0.mem).1 (by decide),
    by decide,
    (C17_writers_accept_same_tags x86_64 42 float_3_9 100 FFI_TYPE_POINTER L0.mem).2.1
      (by decide)⟩

/-! ## C18: a CVar source with a scalar destination -/

/-- With a scalar destination, a userdata that `luaL_checkudata` accepts as
`ffi_cvar` is copied when its tag is the destination tag, and gives 0 when it
is not. -/
theorem dispatch_cvar (H : Host) (L : lua_State) (i : Int) (addr : Nat) (type : Int)
    (p : Nat) (typ : ctype) (id : Nat) (fields : List (String × TValue))
    (ht : type ≠ FFI_TYPE_POINTER)
    (hv : index2value L i = some (.userdata p typ (some (id, fields))))
    (hr : L.registry "ffi_cvar" = some id) (hp : p ≠ 0) :
    cast_lua_c_dispatch H L i addr type
      = if type = typ.type then
          .ret 1 { L with mem := memcpy L.mem addr p (H.c_sizeof_ typ) }
        else .ret 0 L := by
  have h1 : lua_type L i = LUA_TUSERDATA := lua_type_of_index L i _ hv
  have h2 : luaL_checkudata L i "ffi_cvar" = .ret p L := by
    simp [luaL_checkudata, luaL_testudata, hv, hr, hp]
  have h3 : c_typeof_ L i = typ := by simp [c_typeof_, hv]
  unfold cast_lua_c_dispatch
  simp only [h1, h2, h3, if_neg ht]
  rw [if_neg (show ¬ LUA_TUSERDATA = LUA_TBOOLEAN by decide),
    if_neg (show ¬ LUA_TUSERDATA = LUA_TNUMBER by decide), if_pos trivial]

/-- C18. For a source that `luaL_checkudata` accepts as `ffi_cvar` and a
destination tag other than `POINTER`, with `c_sizeof_` giving the width of the
tag as the spec has it: `cast_lua_c` returns 1 exactly when the tag of the
CVar is the destination tag, and otherwise raises its argument error; when it
returns 1, the bytes of the destination, as many as the tag is wide, are the
bytes at the address of the CVar, every other byte of memory is as before, and
this holds whatever the array length of the CVar. -/
theorem C18_cvar_raw_copy (H : Host) (L : lua_State) (i : Int) (addr : Nat) (type : Int)
    (p : Nat) (typ : ctype) (id : Nat) (fields : List (String × TValue))
    (ht : type ≠ FFI_TYPE_POINTER)
    (hv : index2value L i = some (.userdata p typ (some (id, fields))))
    (hr : L.registry "ffi_cvar" = some id) (hp : p ≠ 0)
    (hs : H.c_sizeof_ typ = c_sizeof_spec H typ) :
    ((cast_lua_c H L i addr type).value = some 1 ↔ type = typ.type)
    ∧ (type ≠ typ.type →
        (cast_lua_c H L i addr type).error = some ⟨i, expect_msg H type LUA_TUSERDATA⟩)
    ∧ (type = typ.type →
        cast_lua_c H L i addr type
          = .ret 1 { L with mem := memcpy L.mem addr p (tag_width H type) }
        ∧ (∀ k, k < tag_width H type →
            (cast_lua_c H L i addr type).state.mem (addr + k) = L.mem (p + k))
        ∧ (∀ a, a < addr ∨ addr + tag_width H type ≤ a →
            (cast_lua_c H L i addr type).state.mem a = L.mem a)) := by
  have hd := dispatch_cvar H L i addr type p typ id fields ht hv hr hp
  have h1 : lua_type L i = LUA_TUSERDATA := lua_type_of_index L i _ hv
  by_cases he : type = typ.type
  · rw [if_pos he] at hd
    have hw : H.c_sizeof_ typ = tag_width H type := by rw [hs, c_sizeof_spec, he]
    rw [hw] at hd
    have hc := cast_lua_c_of_ret H L i addr type 1 _ hd (by decide)
    refine ⟨?_, fun hne => absurd he hne, fun _ => ⟨hc, ?_, ?_⟩⟩
    · rw [hc]
      exact ⟨fun _ => he, fun _ => rfl⟩
    · intro k hk
      rw [hc]
      simp only [Result.state, memcpy]
      rw [if_pos ⟨by omega, by omega⟩]
      congr 1
      omega
    · intro a ha
      rw [hc]
      simp only [Result.state, memcpy]
      rw [if_neg (by omega)]
  · rw [if_neg he] at hd
    have hc := cast_lua_c_of_zero H L i addr type L hd
    rw [h1] at hc
    refine ⟨?_, fun _ => by rw [hc]; rfl, fun h => absurd h he⟩
    rw [hc]
    exact ⟨fun h => absurd h (by simp [Result.value]), fun h => absurd h he⟩

/-- C18, witness: in the second example state the scalar `sint32` CVar at
index 7 holds 7 and is copied into a `sint32` slot; in the first, the CVar
array of ten `sint32` at index 9 is copied into a `sint32` slot four bytes
wide, and is refused for a `uint32` slot. -/
theorem C18_cvar_raw_copy_witness :
    FFI_TYPE_SINT32 ≠ FFI_TYPE_POINTER
    ∧ index2value L1 7
        = some (.userdata 6144 ⟨0, FFI_TYPE_SINT32⟩
            (some (1, [("__name", .string "ffi_cvar" 640)])))
    ∧ L1.registry "ffi_cvar" = some 1
    ∧ x86_64.c_sizeof_ ⟨0, FFI_TYPE_SINT32⟩ = c_sizeof_spec x86_64 ⟨0, FFI_TYPE_SINT32⟩
    ∧ cast_lua_c x86_64 L1 7 100 FFI_TYPE_SINT32
        = .ret 1 { L1 with mem := memcpy L1.mem 100 6144 (tag_width x86_64 FFI_TYPE_SINT32) }
    ∧ load (cast_lua_c x86_64 L1 7 100 FFI_TYPE_SINT32).state.mem 100 4 = 7
    ∧ x86_64.c_sizeof_ ⟨10, FFI_TYPE_SINT32⟩ = c_sizeof_spec x86_64 ⟨10, FFI_TYPE_SINT32⟩
    ∧ cast_lua_c x86_64 L0 9 100 FFI_TYPE_SINT32
        = .ret 1 { L0 with mem := memcpy L0.mem 100 2048 (tag_width x86_64 FFI_TYPE_SINT32) }
    ∧ (cast_lua_c x86_64 L0 9 100 FFI_TYPE_UINT32).error
        = some ⟨9, expect_msg x86_64 FFI_TYPE_UINT32 LUA_TUSERDATA⟩ :=
  ⟨by decide, rfl, rfl, by decide,
    ((C18_cvar_raw_copy x86_64 L1 7 100 FFI_TYPE_SINT32 6144 ⟨0, FFI_TYPE_SINT32⟩ 1
        [("__name", .string "ffi_cvar" 640)] (by decide) rfl rfl (by decide) (by decide)).2.2
      rfl).1,
    by decide, by decide,
    ((C18_cvar_raw_copy x86_64 L0 9 100 FFI_TYPE_SINT32 2048 ⟨10, FFI_TYPE_SINT32⟩ 1
        [("__name", .string "ffi_cvar" 640)] (by decide) rfl rfl (by decide) (by decide)).2.2
      rfl).1,
    (C18_cvar_raw_copy x86_64 L0 9 100 FFI_TYPE_UINT32 2048 ⟨10, FFI_TYPE_SINT32⟩ 1
        [("__name", .string "ffi_cvar" 640)] (by decide) rfl rfl (by decide) (by decide)).2.1
      (by decide)⟩

/-! ## Facts about what `cast_lua_pointer` returns -/

/-- What `luaL_getmetafield` gives: nothing pushed and `LUA_TNIL`, or the field
pushed and its type. -/
theorem luaL_getmetafield_cases (L : lua_State) (i : Int) (k : String) :
    luaL_getmetafield L i k = (LUA_TNIL, L)
    ∨ ∃ v, luaL_getmetafield L i k = (v.ttype, push L v) := by
  unfold luaL_getmetafield
  split
  · split
    · exact Or.inl rfl
    · exact Or.inr ⟨_, rfl⟩
    · exact Or.inl rfl
  · exact Or.inl rfl

/-- Whenever `cast_lua_pointer` returns, it returns 0, or it returns 1 with the
stack and everything but memory as before the call. -/
theorem cast_lua_pointer_ret (H : Host) (L : lua_State) (i : Int) (pp : Nat) (rc : Int)
    (L1 : lua_State) (h : cast_lua_pointer H L i pp = .ret rc L1) :
    rc = 0 ∨ (rc = 1 ∧ ∃ m, L1 = { L with mem := m }) := by
  cases hv : index2value L i with
  | none =>
    simp [cast_lua_pointer, lua_type, hv, LUA_TNONE, LUA_TNIL, LUA_TNUMBER, LUA_TSTRING,
      LUA_TFUNCTION, LUA_TLIGHTUSERDATA, LUA_TUSERDATA] at h
    exact Or.inl h.1.symm
  | some v =>
    cases v with
    | userdata p typ mt =>
      have ht : lua_type L i = LUA_TUSERDATA := lua_type_of_index L i _ hv
      unfold cast_lua_pointer at h
      simp only [ht] at h
      rw [if_neg (by decide), if_neg (by decide), if_neg (by decide), if_neg (by decide),
        if_neg (by decide), if_pos trivial] at h
      rcases luaL_getmetafield_cases L i "__name" with hm | ⟨v, hm⟩
      · rw [hm] at h
        simp only [] at h
        rw [if_pos (by decide)] at h
        injection h with h1 _
        exact Or.inl h1.symm
      · rw [hm] at h
        simp only [] at h
        split_ifs at h
        all_goals
          injection h with h1 h2
          first
          | exact Or.inl h1.symm
          | exact Or.inr ⟨h1.symm, _, by rw [← h2, lua_pop1_push]⟩
    | float x =>
      cases ht : tointeger H (.float x) with
      | none =>
        simp [cast_lua_pointer, lua_type, hv, TValue.ttype, luaL_checkinteger, ht,
          luaL_argerror, LUA_TNIL, LUA_TNUMBER] at h
      | some n =>
        simp [cast_lua_pointer, lua_type, hv, TValue.ttype, luaL_checkinteger, ht,
          LUA_TNIL, LUA_TNUMBER] at h
        exact Or.inr ⟨h.1.symm, _, h.2.symm⟩
    | cclosure f ups =>
      simp only [cast_lua_pointer, lua_type, hv, TValue.ttype] at h
      rw [if_neg (by decide), if_neg (by decide), if_neg (by decide), if_pos trivial] at h
      cases ups with
      | nil =>
        simp only [lua_getupvalue1, hv] at h
        split_ifs at h
        all_goals
          injection h with h1 h2
          first
          | exact Or.inl h1.symm
          | exact Or.inr ⟨h1.symm, _, h2.symm⟩
      | cons u us =>
        simp only [lua_getupvalue1, hv] at h
        split_ifs at h
        all_goals
          injection h with h1 h2
          exact Or.inl h1.symm
    | nil =>
      simp [cast_lua_pointer, lua_type, hv, TValue.ttype] at h
      exact Or.inr ⟨h.1.symm, _, h.2.symm⟩
    | integer n =>
      simp [cast_lua_pointer, lua_type, hv, TValue.ttype, luaL_checkinteger, LUA_TNIL,
        LUA_TNUMBER] at h
      exact Or.inr ⟨h.1.symm, _, h.2.symm⟩
    | string s q =>
      simp [cast_lua_pointer, lua_type, hv, TValue.ttype, LUA_TNIL, LUA_TNUMBER,
        LUA_TSTRING] at h
      exact Or.inr ⟨h.1.symm, _, h.2.symm⟩
    | lightuserdata q =>
      simp [cast_lua_pointer, lua_type, hv, TValue.ttype, LUA_TNIL, LUA_TNUMBER,
        LUA_TSTRING, LUA_TFUNCTION, LUA_TLIGHTUSERDATA] at h
      exact Or.inr ⟨h.1.symm, _, h.2.symm⟩
    | _ =>
      simp [cast_lua_pointer, lua_type, hv, TValue.ttype, lua_tocfunction,
        LUA_TNIL, LUA_TNUMBER, LUA_TSTRING, LUA_TBOOLEAN, LUA_TTABLE, LUA_TTHREAD,
        LUA_TFUNCTION, LUA_TLIGHTUSERDATA, LUA_TUSERDATA] at h
      exact Or.inl h.1.symm

/-- The dispatch of `cast_lua_c` returns 0 or 1. -/
theorem dispatch_ret (H : Host) (L : lua_State) (i : Int) (addr : Nat) (type rc : Int)
    (L1 : lua_State) (h : cast_lua_c_dispatch H L i addr type = .ret rc L1) :
    rc = 0 ∨ rc = 1 := by
  have hw : ∀ r : Int × Mem, (r.1 = 1 ∨ r = (0, L.mem)) → written L r = .ret rc L1 →
      rc = 0 ∨ rc = 1 := by
    intro r hr hwr
    unfold written at hwr
    injection hwr with h1 _
    rcases hr with hr | hr
    · exact Or.inr (by rw [← h1, hr])
    · exact Or.inl (by rw [← h1, hr])
  unfold cast_lua_c_dispatch at h
  by_cases ht : type = FFI_TYPE_POINTER
  · rw [if_pos ht] at h
    rcases cast_lua_pointer_ret H L i addr rc L1 h with h0 | ⟨h1, _⟩
    · exact Or.inl h0
    · exact Or.inr h1
  · rw [if_neg ht] at h
    by_cases hb : lua_type L i = LUA_TBOOLEAN
    · simp only [hb, if_true] at h
      exact hw _ (cast_int_c_cases H _ addr type L.mem) h
    · simp only [hb, if_false] at h
      by_cases hn : lua_type L i = LUA_TNUMBER
      · simp only [hn, if_true] at h
        split_ifs at h
        · exact hw _ (cast_int_c_cases H _ addr type L.mem) h
        · exact hw _ (cast_number_c_cases H _ addr type L.mem) h
      · simp only [hn, if_false] at h
        by_cases hu : lua_type L i = LUA_TUSERDATA
        · simp only [hu, if_true] at h
          cases hc : luaL_checkudata L i "ffi_cvar" with
          | raise e2 L2 =>
            rw [hc] at h
            exact absurd h (by simp)
          | ret var L2 =>
            rw [hc] at h
            simp only at h
            split_ifs at h
            · injection h with h1 _
              exact Or.inr h1.symm
            · injection h with h1 _
              exact Or.inl h1.symm
        · simp only [hu, if_false] at h
          injection h with h1 _
          exact Or.inl h1.symm

/-! ## C19: what `cast_lua_c` returns -/

/-- C19. Whenever `cast_lua_c` returns to its caller, it returns 1; and
whenever its dispatch gives 0, it does not return but raises its argument
error. -/
theorem C19_returns_only_one (H : Host) (L : lua_State) (i : Int) (addr : Nat) (type : Int) :
    (∀ rc L1, cast_lua_c H L i addr type = .ret rc L1 → rc = 1)
    ∧ (∀ L2, cast_lua_c_dispatch H L i addr type = .ret 0 L2 →
        (cast_lua_c H L i addr type).value = none
        ∧ (cast_lua_c H L i addr type).error
            = some ⟨i, expect_msg H type (lua_type L i)⟩) := by
  constructor
  · intro rc L1 h
    cases hd : cast_lua_c_dispatch H L i addr type with
    | ret rc2 L2 =>
      by_cases hrc : rc2 = 0
      · subst hrc
        rw [cast_lua_c_of_zero H L i addr type L2 hd] at h
        exact absurd h (by simp)
      · rw [cast_lua_c_of_ret H L i addr type rc2 L2 hd hrc] at h
        injection h with h1 _
        rcases dispatch_ret H L i addr type rc2 L2 hd with h0 | h1'
        · exact absurd h0 hrc
        · rw [← h1, h1']
    | raise e2 L2 =>
      rw [cast_lua_c_of_raise H L i addr type e2 L2 hd] at h
      exact absurd h (by simp)
  · intro L2 hd
    rw [cast_lua_c_of_zero H L i addr type L2 hd]
    exact ⟨rfl, rfl⟩

/-- C19, witness: in the example state the integer 42 with a `sint32`
destination is returned with 1, and the string at index 5, whose dispatch
gives 0, makes `cast_lua_c` raise. -/
theorem C19_returns_only_one_witness :
    cast_lua_c x86_64 L0 3 100 FFI_TYPE_SINT32
      = .ret 1 { L0 with mem := (cast_int_c x86_64 42 100 FFI_TYPE_SINT32 L0.mem).2 }
    ∧ (1 : Int) = 1
    ∧ cast_lua_c_dispatch x86_64 L0 5 100 FFI_TYPE_SINT32 = .ret 0 L0
    ∧ (cast_lua_c x86_64 L0 5 100 FFI_TYPE_SINT32).value = none
    ∧ (cast_lua_c x86_64 L0 5 100 FFI_TYPE_SINT32).error
        = some ⟨5, expect_msg x86_64 FFI_TYPE_SINT32 (lua_type L0 5)⟩ :=
  ⟨rfl, (C19_returns_only_one x86_64 L0 3 100 FFI_TYPE_SINT32).1 1 _ rfl, rfl,
    ((C19_returns_only_one x86_64 L0 5 100 FFI_TYPE_SINT32).2 L0 rfl).1,
    ((C19_returns_only_one x86_64 L0 5 100 FFI_TYPE_SINT32).2 L0 rfl).2⟩

/-! ## C20: stack balance of the pointer resolver -/

/-- C20. On every path where `cast_lua_pointer` returns 1, whatever the kind
of the source, the stack has the height and the contents it had before the
call; the state differs from the one before in memory alone. -/
theorem C20_stack_balance (H : Host) (L : lua_State) (i : Int) (pp : Nat) (L1 : lua_State)
    (h : cast_lua_pointer H L i pp = .ret 1 L1) :
    L1.stack = L.stack ∧ L1.stack.length = L.stack.length
    ∧ L1 = { L with mem := L1.mem } := by
  rcases cast_lua_pointer_ret H L i pp 1 L1 h with h0 | ⟨_, m, hm⟩
  · exact absurd h0 (by decide)
  · subst hm
    exact ⟨rfl, rfl, rfl⟩

/-- C20, witness: the Closure handle at index 5 of the second example state,
whose `__name` is looked up, pushed and popped. -/
theorem C20_stack_balance_witness :
    cast_lua_pointer x86_64 L1 5 100
      = .ret 1 { L1 with mem := x86_64.storePtr L1.mem 100 (x86_64.loadPtr L1.mem 20480) }
    ∧ ({ L1 with mem := x86_64.storePtr L1.mem 100 (x86_64.loadPtr L1.mem 20480) }
        : lua_State).stack = L1.stack
    ∧ ({ L1 with mem := x86_64.storePtr L1.mem 100 (x86_64.loadPtr L1.mem 20480) }
        : lua_State).stack.length = L1.stack.length :=
  ⟨rfl,
    (C20_stack_balance x86_64 L1 5 100
      { L1 with mem := x86_64.storePtr L1.mem 100 (x86_64.loadPtr L1.mem 20480) } rfl).1,
    (C20_stack_balance x86_64 L1 5 100
      { L1 with mem := x86_64.storePtr L1.mem 100 (x86_64.loadPtr L1.mem 20480) } rfl).2.1⟩

end Casts
